import Mathlib

/-!
Shallow embedding of the Scribbit Fairness Scanner risk engine
(`content/rules.js` Risk v2 catalog, `content/riskModel.js` registry and
scoring helpers, and the Risk-v2 `content/riskEngine.js` entry point),
together with theorems checking the specification's claims about it.

Strings are modelled as Lean `String` (a list of characters); all text in
the engine is ASCII apart from a few punctuation marks, so JavaScript's
UTF-16 `length` and character-wise case mapping agree with the model.
JavaScript `null`/`undefined` fields are modelled with `Option`.
-/

set_option maxRecDepth 10000

namespace Scribbit

/-- Character class of the JavaScript regex `\s` restricted to the ASCII
whitespace characters that can occur in the engine's inputs. -/
def isJsWs (c : Char) : Bool :=
  c = ' ' || c = '\t' || c = '\n' || c = '\r' || c = '\x0b' || c = '\x0c'

/-- JavaScript `String.prototype.toLowerCase` (character-wise; ASCII). -/
def lowerStr (s : String) : String := ⟨s.data.map Char.toLower⟩

/-- JavaScript `String.prototype.toUpperCase` (character-wise; ASCII). -/
def upperStr (s : String) : String := ⟨s.data.map Char.toUpper⟩

/-- Check that `needle` is a prefix of `hay` (character lists). -/
def isPrefixL : List Char → List Char → Bool
  | [], _ => true
  | _ :: _, [] => false
  | a :: as, b :: bs => a = b && isPrefixL as bs

/-- Worker for `indexOfFrom`: scan `hay` position by position. -/
def indexOfAux (needle : List Char) : Nat → List Char → Nat → Option Nat
  | 0, _, _ => none
  | fuel + 1, hay, pos =>
    if isPrefixL needle hay then some pos
    else
      match hay with
      | [] => none
      | _ :: t => indexOfAux needle fuel t (pos + 1)

/-- JavaScript `hay.indexOf(needle, start)`: position of the first
occurrence of `needle` at or after `start`, `none` when there is none
(JavaScript returns `-1`). -/
def indexOfFrom (hay needle : List Char) (start : Nat) : Option Nat :=
  indexOfAux needle ((hay.drop start).length + 1) (hay.drop start) start

/-- JavaScript `hay.includes(needle)` on character lists. -/
def containsL (hay needle : List Char) : Bool :=
  (indexOfFrom hay needle 0).isSome

/-- JavaScript `hay.includes(needle)` on strings. -/
def sIncludes (hay needle : String) : Bool :=
  containsL hay.data needle.data

/-- JavaScript `String.prototype.trim` on a character list. -/
def trimL (l : List Char) : List Char :=
  ((l.dropWhile isJsWs).reverse.dropWhile isJsWs).reverse

/-- JavaScript `String.prototype.trim`. -/
def trimStr (s : String) : String := ⟨trimL s.data⟩

/-- Worker for `squeeze`; the flag records whether the previous character
was whitespace (so a whitespace run contributes one space only). -/
def squeezeAux : Bool → List Char → List Char
  | _, [] => []
  | prevWs, c :: t =>
    if isJsWs c then
      (if prevWs then [] else [' ']) ++ squeezeAux true t
    else c :: squeezeAux false t

/-- JavaScript `s.replace(/\s+/g, " ")`: collapse every whitespace run to
a single space. -/
def squeeze (l : List Char) : List Char := squeezeAux false l

/-- Last index of character `c` in the list (JavaScript `lastIndexOf`). -/
def lastIndexOfAux (c : Char) : List Char → Nat → Option Nat → Option Nat
  | [], _, acc => acc
  | x :: t, i, acc => lastIndexOfAux c t (i + 1) (if x = c then some i else acc)

/-- JavaScript `s.lastIndexOf(c)`, `none` for `-1`. -/
def lastIndexOfL (c : Char) (l : List Char) : Option Nat :=
  lastIndexOfAux c l 0 none

/-- JavaScript `a || b` for string-valued expressions: the empty string is
falsy, a missing (`undefined`) field is falsy. -/
def jsOr (o : Option String) (d : String) : String :=
  match o with
  | none => d
  | some s => if s = "" then d else s

/-- Deduplicate a list of strings keeping first occurrences, as
`Array.from(new Set(xs))` does. -/
def dedupe (l : List String) : List String :=
  (l.foldl (fun acc x => if acc.contains x then acc else x :: acc) []).reverse

/-- Join a list of strings with a separator (JavaScript `Array.join`). -/
def joinSep (sep : String) : List String → String
  | [] => ""
  | [x] => x
  | x :: y :: t => x ++ sep ++ joinSep sep (y :: t)

/-! ### Evidence snippet cleaning (`cleanEvidenceSnippet` in rules.js) -/

/-- Match the fixed lowercase pattern `pat` case-insensitively at the head
of `hay`; return the rest of `hay` on success. -/
def matchLit : List Char → List Char → Option (List Char)
  | [], hay => some hay
  | _ :: _, [] => none
  | p :: ps, c :: t => if c.toLower = p then matchLit ps t else none

/-- Regex `\s+` at the head of the list (greedy, the following pattern
characters are never whitespace so greediness is safe). -/
def matchWsPlus : List Char → Option (List Char)
  | [] => none
  | c :: t => if isJsWs c then some (t.dropWhile isJsWs) else none

/-- Regex `\s*` at the head of the list. -/
def matchWsStar (l : List Char) : List Char := l.dropWhile isJsWs

/-- Match one literal character. -/
def matchChar (c : Char) : List Char → Option (List Char)
  | [] => none
  | x :: t => if x = c then some t else none

/-- Regex `\d+` at the head of the list (greedy; the following pattern
characters are never digits). -/
def matchDigits : List Char → Option (List Char)
  | [] => none
  | c :: t => if c.isDigit then some (t.dropWhile Char.isDigit) else none

/-- Match of `/Scribbit\s+Multi-Risk\s+Test\s+Terms/i` at the head of the
list; returns the unconsumed rest. -/
def strip1At (l : List Char) : Option (List Char) :=
  (matchLit "scribbit".data l).bind fun r1 =>
  (matchWsPlus r1).bind fun r2 =>
  (matchLit "multi-risk".data r2).bind fun r3 =>
  (matchWsPlus r3).bind fun r4 =>
  (matchLit "test".data r4).bind fun r5 =>
  (matchWsPlus r5).bind fun r6 =>
  matchLit "terms".data r6

/-- Word character for the JavaScript `\b` boundary: `[A-Za-z0-9_]`. -/
def isWordChar (c : Char) : Bool := c.isAlphanum || c = '_'

/-- Match of `/Scribbit\b/i` at the head of the list. -/
def strip2At (l : List Char) : Option (List Char) :=
  (matchLit "scribbit".data l).bind fun rest =>
    match rest with
    | [] => some []
    | c :: t => if isWordChar c then none else some (c :: t)

/-- Match of `/rail risk\s*\(\s*\d+\/\d+\s*\)/i` at the head of the list. -/
def strip3At (l : List Char) : Option (List Char) :=
  (matchLit "rail risk".data l).bind fun r1 =>
  (matchChar '(' (matchWsStar r1)).bind fun r2 =>
  (matchDigits (matchWsStar r2)).bind fun r3 =>
  (matchChar '/' r3).bind fun r4 =>
  (matchDigits r4).bind fun r5 =>
  matchChar ')' (matchWsStar r5)

/-- JavaScript `s.replace(re, "")` with a global regex: scan left to
right, delete each match, resume after it.  The patterns used here never
match the empty string, so advancing past a match always makes progress;
`fuel` bounds the recursion (callers pass `length + 1`). -/
def scanReplace (matchAt : List Char → Option (List Char)) : Nat → List Char → List Char
  | 0, l => l
  | _ + 1, [] => []
  | fuel + 1, c :: t =>
    match matchAt (c :: t) with
    | some rest => scanReplace matchAt fuel rest
    | none => c :: scanReplace matchAt fuel t

/-- JavaScript `s.lastIndexOf(c)` with its `-1` sentinel, as an `Int`. -/
def jsLastIndexInt (c : Char) (l : List Char) : Int :=
  match lastIndexOfL c l with
  | some i => (i : Int)
  | none => -1

/-- The word/sentence boundary used when truncating a long snippet: the
last period past position 80 (inclusive of the period), else the last
space past position 80, else the whole cut. -/
def truncBoundary (cut : List Char) : Nat :=
  if jsLastIndexInt '.' cut > 80 then (jsLastIndexInt '.' cut + 1).toNat
  else if jsLastIndexInt ' ' cut > 80 then (jsLastIndexInt ' ' cut).toNat
  else cut.length

/-- The truncation step of `cleanEvidenceSnippet`: text longer than
`maxLen` is cut to `maxLen - 1` characters, shortened to a boundary,
trimmed, and suffixed with an ellipsis. -/
def truncateSnippet (maxLen : Nat) (txt : List Char) : String :=
  if txt = [] then ""
  else if txt.length > maxLen then
    ⟨trimL ((txt.take (maxLen - 1)).take (truncBoundary (txt.take (maxLen - 1)))) ++ ['…']⟩
  else ⟨txt⟩

/-- `cleanEvidenceSnippet(snippet, maxLen)` from rules.js: collapse
whitespace, strip Scribbit test artifacts, collapse again, then truncate
to `maxLen` characters at a word/sentence boundary with an ellipsis.
All call sites use the default `maxLen = 220`, passed explicitly here. -/
def cleanEvidence (snippet : String) (maxLen : Nat) : String :=
  let t0 := trimL (squeeze snippet.data)
  let t1 := scanReplace strip1At (t0.length + 1) t0
  let t2 := scanReplace strip2At (t1.length + 1) t1
  let t3 := scanReplace strip3At (t2.length + 1) t2
  truncateSnippet maxLen (trimL (squeeze t3))

/-! ### Keyword evidence extraction (`findKeywordEvidence` in rules.js) -/

/-- Sentence-start search: largest `s ≤ i` such that `s = 0` or the
character before `s` is a sentence boundary (`.`, `!`, `?`, newline). -/
def isSentB (c : Char) : Bool :=
  c = '.' || c = '!' || c = '?' || c = '\n' || c = '\r'

/-- Walk back from `i` to the nearest sentence boundary. -/
def sentStart (l : List Char) : Nat → Nat
  | 0 => 0
  | i + 1 =>
    match l.get? i with
    | some c => if isSentB c then i + 1 else sentStart l i
    | none => sentStart l i

/-- Walk forward from `e` to just past the nearest sentence boundary. -/
def sentEndAux (l : List Char) : Nat → Nat → Nat
  | 0, e => e
  | fuel + 1, e =>
    match l.get? e with
    | none => e
    | some c => if isSentB c then e + 1 else sentEndAux l fuel (e + 1)

/-- Forward sentence-boundary search starting at `e`. -/
def sentEnd (l : List Char) (e : Nat) : Nat := sentEndAux l (l.length + 1) e

/-- Inner occurrence loop of `findKeywordEvidence` for one keyword:
repeatedly `indexOf` the needle, slice the surrounding sentence out of the
raw text, clean it, and push it unless it duplicates (case-insensitively)
an already collected snippet.  `fuel` bounds the loop (occurrences of a
non-empty needle are at most the text length). -/
def evOcc (rawText lowerRaw needle : List Char) (maxSnippets : Nat) :
    Nat → Nat → List String → List String
  | 0, _, snips => snips
  | fuel + 1, idx, snips =>
    match indexOfFrom lowerRaw needle idx with
    | none => snips
    | some i =>
      if snips.length < maxSnippets then
        let start := sentStart lowerRaw i
        let stop0 := sentEnd lowerRaw (i + needle.length)
        let stop := if stop0 ≤ start then min lowerRaw.length (i + needle.length + 80) else stop0
        let rawSnippet : String := ⟨(rawText.drop start).take (stop - start)⟩
        let cleaned := cleanEvidence rawSnippet 220
        let snips2 :=
          if cleaned ≠ "" && !((snips.map lowerStr).contains (lowerStr cleaned)) then
            snips ++ [cleaned]
          else snips
        evOcc rawText lowerRaw needle maxSnippets fuel (i + needle.length) snips2
      else snips

/-- `findKeywordEvidence(textNormalized, rawText, keywords, maxSnippets)`
from rules.js.  The normalized text is accepted but unused, exactly as in
the source (matching is done on `rawText.toLowerCase()`). -/
def findKeywordEvidence (_textNormalized rawText : String) (keywords : List String)
    (maxSnippets : Nat) : List String :=
  if rawText = "" ∨ keywords = [] then []
  else
    let lowerRaw := rawText.data.map Char.toLower
    keywords.foldl
      (fun snips kw =>
        if snips.length ≥ maxSnippets then snips
        else evOcc rawText.data lowerRaw (lowerStr kw).data maxSnippets
          (rawText.data.length + 1) 0 snips)
      []

/-! ### Risk card registry (`RISK_CARDS` in riskModel.js) -/

/-- `RiskCardDefinition` from riskModel.js.  Categories and severities are
plain strings there (documented as `financial | data_privacy | content_ip |
legal_rights` and `low | med | high`). -/
structure RiskCardDefinition where
  id : String
  category : String
  title : String
  defaultDescription : String
  severity : String
  autoPopupWorthy : Bool
deriving DecidableEq

/-- The static `RISK_CARDS` catalog of riskModel.js as an association
list in source order (object key → card definition). -/
def RISK_CARDS : List (String × RiskCardDefinition) := [
  ("extra_fees_not_in_base_price",
   { id := "extra_fees_not_in_base_price", category := "financial",
     title := "Extra Fees Not in Base Price",
     defaultDescription := "The advertised price may not include mandatory fees such as cleaning, service, booking, or facility fees.",
     severity := "med", autoPopupWorthy := true }),
  ("resort_or_facility_fee",
   { id := "resort_or_facility_fee", category := "financial",
     title := "Daily Resort / Facility Fee",
     defaultDescription := "A daily resort, amenity, or facility fee may be charged on top of the advertised price.",
     severity := "high", autoPopupWorthy := true }),
  ("taxes_not_included",
   { id := "taxes_not_included", category := "financial",
     title := "Taxes Not Included in Price",
     defaultDescription := "Taxes such as VAT, sales tax, or occupancy tax may not be included in the displayed price.",
     severity := "med", autoPopupWorthy := false }),
  ("short_refund_or_return_window",
   { id := "short_refund_or_return_window", category := "financial",
     title := "Short Refund / Return Window",
     defaultDescription := "You only have a limited time after purchase or delivery to cancel or return for a refund.",
     severity := "med", autoPopupWorthy := true }),
  ("non_refundable_or_final_sale",
   { id := "non_refundable_or_final_sale", category := "financial",
     title := "Non-Refundable / Final Sale",
     defaultDescription := "Some or all purchases are non-refundable or final sale, with no option to get your money back.",
     severity := "high", autoPopupWorthy := true }),
  ("buyer_pays_return_shipping",
   { id := "buyer_pays_return_shipping", category := "financial",
     title := "You Pay Return Shipping",
     defaultDescription := "You may be responsible for the cost of shipping items back if you return them.",
     severity := "med", autoPopupWorthy := true }),
  ("partial_refund_only",
   { id := "partial_refund_only", category := "financial",
     title := "Only Partial Refunds",
     defaultDescription := "Refunds may be reduced by fees, restocking charges, or deductions for used portions.",
     severity := "med", autoPopupWorthy := true }),
  ("auto_renewing_subscription",
   { id := "auto_renewing_subscription", category := "financial",
     title := "Auto-Renewing Subscription",
     defaultDescription := "Your subscription may renew automatically and charge you again unless you cancel in time.",
     severity := "med", autoPopupWorthy := true }),
  ("dcc_or_fx_markup",
   { id := "dcc_or_fx_markup", category := "financial",
     title := "Currency Conversion Markup (DCC)",
     defaultDescription := "You may be charged in a non-local currency or at a marked-up exchange rate, leading to extra FX costs.",
     severity := "high", autoPopupWorthy := true }),
  ("charged_in_different_currency",
   { id := "charged_in_different_currency", category := "financial",
     title := "Charged in a Different Currency",
     defaultDescription := "You may be billed in a different currency than expected, which can add extra fees or FX charges.",
     severity := "med", autoPopupWorthy := true }),
  ("price_anchoring_or_reference_prices",
   { id := "price_anchoring_or_reference_prices", category := "financial",
     title := "Possibly Misleading Discounts",
     defaultDescription := "The page uses 'Was $X, Now $Y' or similar reference prices that may exaggerate your true savings.",
     severity := "med", autoPopupWorthy := false }),
  ("extensive_data_collection",
   { id := "extensive_data_collection", category := "data_privacy",
     title := "Extensive Data Collection",
     defaultDescription := "The service collects a broad range of personal, device, or behavioral data about you.",
     severity := "med", autoPopupWorthy := false }),
  ("sensitive_data_collection",
   { id := "sensitive_data_collection", category := "data_privacy",
     title := "Sensitive Data Collected",
     defaultDescription := "The service may collect sensitive data such as biometrics, face data, government IDs, or precise location.",
     severity := "high", autoPopupWorthy := true }),
  ("images_used_for_analysis_or_improvement",
   { id := "images_used_for_analysis_or_improvement", category := "data_privacy",
     title := "Your Images May Be Analyzed or Used",
     defaultDescription := "Images or media you upload may be stored and used for analysis, moderation, or service improvement.",
     severity := "med", autoPopupWorthy := true }),
  ("data_shared_with_third_parties",
   { id := "data_shared_with_third_parties", category := "data_privacy",
     title := "Data Shared with Third Parties",
     defaultDescription := "Your data may be shared with partners, advertisers, or analytics providers.",
     severity := "med", autoPopupWorthy := false }),
  ("data_used_to_train_ai",
   { id := "data_used_to_train_ai", category := "data_privacy",
     title := "Your Data May Train AI Models",
     defaultDescription := "Your content or usage data may be used to train machine learning or AI systems.",
     severity := "high", autoPopupWorthy := true }),
  ("precise_location_tracking",
   { id := "precise_location_tracking", category := "data_privacy",
     title := "Precise Location Tracking",
     defaultDescription := "The service may collect precise or continuous location data from your device.",
     severity := "high", autoPopupWorthy := true }),
  ("data_retention_after_deletion",
   { id := "data_retention_after_deletion", category := "data_privacy",
     title := "Data Kept After Account Deletion",
     defaultDescription := "Your data may be retained even after you close or delete your account.",
     severity := "high", autoPopupWorthy := true }),
  ("cross_site_or_cross_device_tracking",
   { id := "cross_site_or_cross_device_tracking", category := "data_privacy",
     title := "Cross-Site / Cross-Device Tracking",
     defaultDescription := "Your activity may be tracked across different websites, apps, or devices.",
     severity := "med", autoPopupWorthy := false }),
  ("broad_license_to_user_content",
   { id := "broad_license_to_user_content", category := "content_ip",
     title := "Broad License to Your Content",
     defaultDescription := "You grant the company a broad license to use, reproduce, or adapt your content.",
     severity := "high", autoPopupWorthy := true }),
  ("irrevocable_or_perpetual_license",
   { id := "irrevocable_or_perpetual_license", category := "content_ip",
     title := "Perpetual / Irrevocable Rights to Your Content",
     defaultDescription := "The company may keep rights to your content indefinitely, even if you delete it.",
     severity := "high", autoPopupWorthy := true }),
  ("content_may_be_used_in_marketing_or_publicly",
   { id := "content_may_be_used_in_marketing_or_publicly", category := "content_ip",
     title := "Your Content May Be Used Publicly",
     defaultDescription := "Your content or images may be displayed publicly or used in marketing materials.",
     severity := "high", autoPopupWorthy := true }),
  ("uploads_may_be_public_or_searchable",
   { id := "uploads_may_be_public_or_searchable", category := "content_ip",
     title := "Uploads May Be Publicly Visible",
     defaultDescription := "Content you upload may be visible to anyone or appear in search results.",
     severity := "high", autoPopupWorthy := true }),
  ("mandatory_arbitration",
   { id := "mandatory_arbitration", category := "legal_rights",
     title := "Mandatory Arbitration",
     defaultDescription := "Disputes must be resolved through private arbitration instead of court.",
     severity := "high", autoPopupWorthy := true }),
  ("class_action_waiver",
   { id := "class_action_waiver", category := "legal_rights",
     title := "No Class Actions",
     defaultDescription := "You may waive the right to participate in class-action lawsuits.",
     severity := "high", autoPopupWorthy := true }),
  ("unilateral_terms_changes",
   { id := "unilateral_terms_changes", category := "legal_rights",
     title := "Terms Can Change Unilaterally",
     defaultDescription := "The company can change terms at any time, and continued use counts as acceptance.",
     severity := "med", autoPopupWorthy := false }),
  ("strong_liability_limitations",
   { id := "strong_liability_limitations", category := "legal_rights",
     title := "Strong Liability Limitations",
     defaultDescription := "The company heavily limits its responsibility for losses or damages.",
     severity := "med", autoPopupWorthy := true }),
  ("account_termination_at_discretion",
   { id := "account_termination_at_discretion", category := "legal_rights",
     title := "Account Can Be Terminated at Company’s Discretion",
     defaultDescription := "Your account can be suspended or terminated at any time, sometimes without clear reason.",
     severity := "med", autoPopupWorthy := false }),
  ("loss_of_content_or_balance_on_termination",
   { id := "loss_of_content_or_balance_on_termination", category := "legal_rights",
     title := "Loss of Content or Balance on Termination",
     defaultDescription := "If your account is closed, you may lose access to purchased content, credits, or balances.",
     severity := "high", autoPopupWorthy := true }),
  ("weak_security_commitments",
   { id := "weak_security_commitments", category := "legal_rights",
     title := "Limited Security Commitments",
     defaultDescription := "The company does not strongly guarantee the security of your data.",
     severity := "med", autoPopupWorthy := false }),
  ("no_liability_for_data_breach",
   { id := "no_liability_for_data_breach", category := "legal_rights",
     title := "Limited Responsibility for Data Breaches",
     defaultDescription := "The company may disclaim responsibility for unauthorized access or data breaches.",
     severity := "high", autoPopupWorthy := true })
]

/-- Property lookup `RISK_CARDS[cardId]` (undefined → `none`). -/
def lookupCard (cardId : String) : Option RiskCardDefinition :=
  RISK_CARDS.lookup cardId

/-! ### Detected risks and `createRiskFromCard` (rules.js, Risk v2) -/

/-- The DetectedRisk-like object built by `createRiskFromCard`.  The
`extras` argument at every call site in the Risk v2 rules.js is an object
carrying only a `tags` array, so it is modelled as the tag list. -/
structure DetectedRisk where
  id : String
  category : String
  title : String
  description : String
  severity : String
  autoPopupWorthy : Bool
  ruleId : String
  label : String
  severityScore : Nat
  tags : List String
  evidence : List String
deriving DecidableEq

/-- `createRiskFromCard(cardId, evidence, extras)` from the Risk v2
rules.js: unknown card ids are a logged configuration error and yield no
finding (`null`); otherwise the card's fields are copied, the severity is
upper-cased for the legacy engine, and the legacy 1/2/3 severity score is
attached. -/
def createRiskFromCard (cardId : String) (evidence : List String)
    (tags : List String) : Option DetectedRisk :=
  match lookupCard cardId with
  | none => none
  | some cardDef =>
    let sevLower := lowerStr (if cardDef.severity = "" then "med" else cardDef.severity)
    let sevUpper := if sevLower = "high" then "HIGH" else if sevLower = "low" then "LOW" else "MEDIUM"
    let legacy : Nat := if sevUpper = "HIGH" then 3 else if sevUpper = "MEDIUM" then 2 else 1
    some {
      id := cardDef.id, category := cardDef.category, title := cardDef.title,
      description := cardDef.defaultDescription, severity := sevUpper,
      autoPopupWorthy := cardDef.autoPopupWorthy, ruleId := cardDef.id,
      label := cardDef.title, severityScore := legacy, tags := tags,
      evidence := evidence }

/-! ### Page snapshots

The snapshot is built externally (scanner.js: `textNormalized =
rawText.toLowerCase()`); detectors must tolerate absent fields.  Absent
(`undefined`) fields are `none`.  `bookingTotalAmount` is a finite
JavaScript number when present; it is modelled as a rational (the code
guards with `isFinite`, so NaN/Infinity behave like an absent field).
This typed `Snapshot` covers the field types the scanner produces —
string or absent; a *malformed*, non-string text field in a
caller-supplied object is modelled by the dynamic `JsSnapshot`
extension further below, whose engine agrees with this one on all
well-typed snapshots. -/
structure Snapshot where
  url : Option String
  textRaw : Option String
  textNormalized : Option String
  currencySymbolsDetected : Option (List String)
  bookingTotalAmount : Option ℚ
  bookingCurrencySymbol : Option String
deriving DecidableEq

/-- A snapshot with every field absent (`{}` in the JavaScript engine). -/
def emptySnapshot : Snapshot :=
  { url := none, textRaw := none, textNormalized := none,
    currencySymbolsDetected := none, bookingTotalAmount := none,
    bookingCurrencySymbol := none }

/-- A rule of the Risk v2 catalog: an id and a pure
`evaluate(snapshot) -> DetectedRisk | null` function. -/
structure Rule where
  id : String
  evaluate : Snapshot → Option DetectedRisk

/-! ### Rule 1: refund / cancellation keywords (`REFUND_KEYWORDS_RULE`) -/

/-- The strong refund-restriction terms of `REFUND_KEYWORDS_RULE`. -/
def strongRefundTerms : List String :=
  ["non-refundable", "nonrefundable", "no refund", "no refunds",
   "no cancellations", "cannot be cancelled", "cannot be canceled"]

/-- The weaker refund signals of `REFUND_KEYWORDS_RULE`. -/
def weakerRefundSignals : List String :=
  ["cancellation fee", "cancellation policy", "refund policy",
   "change fee", "amendment fee"]

/-- Body of `REFUND_KEYWORDS_RULE.evaluate`. -/
def refundKeywordsEval (snap : Snapshot) : Option DetectedRisk :=
  let text := jsOr snap.textNormalized ""
  if text = "" then none
  else
    let hasStrong := strongRefundTerms.any (fun kw => sIncludes text kw)
    let hasWeak := weakerRefundSignals.any (fun kw => sIncludes text kw)
    if !hasStrong && !hasWeak then none
    else
      let raw := jsOr snap.textRaw ""
      let evidence := findKeywordEvidence text raw
        (if hasStrong then strongRefundTerms else weakerRefundSignals) 3
      if evidence = [] then none
      else if hasStrong then
        createRiskFromCard "non_refundable_or_final_sale" evidence
          ["refunds", "cancellation"]
      else
        createRiskFromCard "short_refund_or_return_window" evidence
          ["refunds", "cancellation"]

/-- `REFUND_KEYWORDS_RULE` from the Risk v2 rules.js. -/
def REFUND_KEYWORDS_RULE : Rule :=
  { id := "refund_keywords_basic", evaluate := refundKeywordsEval }

/-! ### Rule 1b: time-based refund windows (`REFUND_SHORT_WINDOW_RULE`) -/

/-- Cancellation/refund context keywords for the window rules. -/
def cancellationContextKeywords : List String :=
  ["cancel", "cancellation", "refund", "refundable"]

/-- Ultra-short (24–72 hour) cancellation window phrases. -/
def ultraShortPhrases : List String :=
  ["within 24 hours", "within 48 hours", "within 72 hours",
   "24 hours of purchase", "48 hours of purchase", "72 hours of purchase",
   "24 hours of booking", "48 hours of booking", "72 hours of booking"]

/-- Short (up to 7 day) cancellation window phrases. -/
def shortWindowPhrases : List String :=
  ["within 7 days", "up to 7 days", "7 days of purchase", "7 days of booking",
   "7 days before arrival", "7 days before check-in",
   "seven days before arrival", "seven days before check in"]

/-- Body of `REFUND_SHORT_WINDOW_RULE.evaluate`. -/
def refundShortWindowEval (snap : Snapshot) : Option DetectedRisk :=
  let text := jsOr snap.textNormalized ""
  if text = "" then none
  else
    let raw := jsOr snap.textRaw ""
    let lower := lowerStr text
    let hasContext := cancellationContextKeywords.any (fun kw => sIncludes lower kw)
    if !hasContext then none
    else
      let hasUltraShort := ultraShortPhrases.any (fun p => sIncludes lower p)
      let hasShort := shortWindowPhrases.any (fun p => sIncludes lower p)
      if !hasUltraShort && !hasShort then none
      else
        let cardId := if hasUltraShort then "ultra_short_refund_window"
                      else "short_refund_or_return_window"
        let phrasesForEvidence := if hasUltraShort then ultraShortPhrases
                                  else shortWindowPhrases
        let evidence := findKeywordEvidence text raw phrasesForEvidence 3
        if evidence = [] then none
        else createRiskFromCard cardId evidence
          ["refunds", "cancellation",
           if hasUltraShort then "ultra_short" else "short_window"]

/-- `REFUND_SHORT_WINDOW_RULE` from the Risk v2 rules.js. -/
def REFUND_SHORT_WINDOW_RULE : Rule :=
  { id := "refund_short_window_time_based", evaluate := refundShortWindowEval }

/-! ### Rule 1c: slow refund processing (`REFUND_DELAY_RULE`) -/

/-- Refund context keywords for the delay rule. -/
def refundDelayContextKeywords : List String :=
  ["refund", "refunded", "refunds", "reimbursement", "credited"]

/-- Long refund processing phrases. -/
def delayPhrases : List String :=
  ["within 30 days", "within 45 days", "within 60 days",
   "30 days of the refund request", "30 days of your refund request",
   "30 days after your request", "30 days after the request",
   "30 to 60 days", "30-60 days", "30 – 60 days",
   "may take 30 days", "may take up to 30 days", "may take up to 60 days",
   "processing time of 30 days", "processing time of 60 days",
   "4-6 weeks", "4 to 6 weeks", "four to six weeks"]

/-- Body of `REFUND_DELAY_RULE.evaluate`. -/
def refundDelayEval (snap : Snapshot) : Option DetectedRisk :=
  let text := jsOr snap.textNormalized ""
  if text = "" then none
  else
    let raw := jsOr snap.textRaw ""
    let lower := lowerStr text
    let hasContext := refundDelayContextKeywords.any (fun kw => sIncludes lower kw)
    if !hasContext then none
    else
      let hasDelayLanguage := delayPhrases.any (fun p => sIncludes lower p)
      if !hasDelayLanguage then none
      else
        let evidence := findKeywordEvidence text raw delayPhrases 3
        if evidence = [] then none
        else createRiskFromCard "delayed_refund_processing" evidence
          ["refunds", "delay", "cashflow"]

/-- `REFUND_DELAY_RULE` from the Risk v2 rules.js. -/
def REFUND_DELAY_RULE : Rule :=
  { id := "refund_delay_processing_basic", evaluate := refundDelayEval }

/-! ### Rule 1d: percentage-based partial refunds
(`REFUND_PERCENTAGE_EXPOSURE_RULE`) -/

/-- Render a rational amount.  This abstracts the locale-dependent
JavaScript `toLocaleString(undefined, {maximumFractionDigits: 2})` /
number-to-string rendering, whose exact digits no claim depends on. -/
def formatAmount (q : ℚ) : String := toString q

/-- `buildExposureLine(totalAmount, lostPercent, symbol)` from the Risk
v2 rules.js (finite-number guards are implied by the rational model). -/
def buildExposureLine (totalAmount lostPercent : ℚ) (symbol : String) : Option String :=
  if totalAmount ≤ 0 ∨ lostPercent ≤ 0 then none
  else
    let currencySymbol := if symbol = "" then "$" else symbol
    let lostAmountRaw := totalAmount * lostPercent / 100
    let lostAmount : ℚ := ((round (lostAmountRaw * 100) : ℤ) : ℚ) / 100
    some ("If your total booking is around " ++ currencySymbol ++
      formatAmount totalAmount ++ ", losing " ++ formatAmount lostPercent ++
      "% means roughly " ++ currencySymbol ++ formatAmount lostAmount ++
      " at risk if you cancel after this point.")

/-- Regex tail `\s*%`: count of whitespace plus the percent sign. -/
def wsStarThenPercent (l : List Char) : Option Nat :=
  let k := (l.takeWhile isJsWs).length
  match l.drop k with
  | c :: _ => if c = '%' then some (k + 1) else none
  | [] => none

/-- Try to match `/(\d{1,2})\s*%/` at the head of the list; on success
return the captured digit characters and the total match length
(two digits are tried greedily first, as the regex engine does). -/
def tryPercentAt : List Char → Option (List Char × Nat)
  | [] => none
  | a :: rest1 =>
    if a.isDigit then
      match rest1 with
      | b :: rest2 =>
        if b.isDigit then
          match wsStarThenPercent rest2 with
          | some k => some ([a, b], 2 + k)
          | none =>
            match wsStarThenPercent rest1 with
            | some k => some ([a], 1 + k)
            | none => none
        else
          match wsStarThenPercent rest1 with
          | some k => some ([a], 1 + k)
          | none => none
      | [] => none
    else none

/-- Global-regex scan of `/(\d{1,2})\s*%/g` over the text: list of
(captured digits, match index) in order, resuming after each match. -/
def scanPercentsAux (l : List Char) : Nat → Nat → List (List Char × Nat) →
    List (List Char × Nat)
  | 0, _, acc => acc
  | fuel + 1, i, acc =>
    if l.length ≤ i then acc
    else
      match tryPercentAt (l.drop i) with
      | some (ds, len) => scanPercentsAux l fuel (i + len) (acc ++ [(ds, i)])
      | none => scanPercentsAux l fuel (i + 1) acc

/-- All `/(\d{1,2})\s*%/g` matches in the list. -/
def scanPercents (l : List Char) : List (List Char × Nat) :=
  scanPercentsAux l (l.length + 1) 0 []

/-- `parseInt` on a captured digit string. -/
def parseDigits (ds : List Char) : Nat :=
  ds.foldl (fun n c => n * 10 + (c.toNat - '0'.toNat)) 0

/-- The refund/fee context test `/(refund|refunded|refunds|cancel|
cancellation|fee|charge)/` applied to the ±80 character window. -/
def percentWindowTerms : List String :=
  ["refund", "refunded", "refunds", "cancel", "cancellation", "fee", "charge"]

/-- The dollar-exposure evidence block of
`REFUND_PERCENTAGE_EXPOSURE_RULE`: when the snapshot carries a positive
finite booking total, the exposure line for the chosen (smallest) refund
percentage, otherwise nothing. -/
def exposureFor (snap : Snapshot) (chosenPercent : Nat) : List String :=
  match snap.bookingTotalAmount with
  | some total =>
    if 0 < total then
      match buildExposureLine total ((100 : ℚ) - (chosenPercent : ℚ))
          (jsOr snap.bookingCurrencySymbol "$") with
      | some line => [line]
      | none => []
    else []
  | none => []

/-- Body of `REFUND_PERCENTAGE_EXPOSURE_RULE.evaluate`. -/
def refundPercentageEval (snap : Snapshot) : Option DetectedRisk :=
  let text := jsOr snap.textNormalized ""
  if text = "" then none
  else
    let raw := jsOr snap.textRaw ""
    let lower := lowerStr text
    let hasContext := cancellationContextKeywords.any (fun kw => sIncludes lower kw)
    if !hasContext then none
    else
      let candidates := (scanPercents lower.data).filterMap (fun m =>
        let percentNum := parseDigits m.1
        if percentNum = 0 ∨ 100 ≤ percentNum then none
        else
          let windowStart := m.2 - 80
          let windowEnd := min lower.data.length (m.2 + 80)
          let windowText : String :=
            ⟨(lower.data.drop windowStart).take (windowEnd - windowStart)⟩
          if percentWindowTerms.any (fun t => sIncludes windowText t) then
            some (percentNum, (⟨m.1⟩ : String) ++ "%")
          else none)
      match candidates with
      | [] => none
      | c0 :: rest =>
        let chosen := rest.foldl
          (fun ch c => if 100 - ch.1 < 100 - c.1 then c else ch) c0
        let snippetEvidence := findKeywordEvidence text raw [chosen.2] 2
        let evidence := snippetEvidence ++ exposureFor snap chosen.1
        if evidence = [] then none
        else createRiskFromCard "short_refund_or_return_window" evidence
          ["refunds", "cancellation", "partial_refund", "percentage"]

/-- `REFUND_PERCENTAGE_EXPOSURE_RULE` from the Risk v2 rules.js. -/
def REFUND_PERCENTAGE_EXPOSURE_RULE : Rule :=
  { id := "refund_percentage_exposure", evaluate := refundPercentageEval }

/-! ### Rule 2: DCC / FX confusion (`DCC_MIXED_CURRENCY_RULE`) -/

/-- The conversion-language phrases of the Risk v2 DCC rule. -/
def dccPhrases : List String :=
  ["dynamic currency conversion", "dcc", "pay in your card currency",
   "pay in your currency", "pay in card currency", "you will be charged in",
   "will be charged in", "charged in your currency", "currency conversion fee",
   "currency conversion", "conversion fee", "conversion rate applies",
   "exchange rate will be", "we convert", "we may convert", "local currency",
   "card currency", "foreign transaction fee", "fx fee"]

/-- Body of `DCC_MIXED_CURRENCY_RULE.evaluate`: fires only when both two
or more distinct currency markers and conversion language are present. -/
def dccMixedCurrencyEval (snap : Snapshot) : Option DetectedRisk :=
  let text := trimStr (jsOr snap.textNormalized "")
  if text = "" then none
  else
    let symbols := snap.currencySymbolsDetected.getD []
    if symbols.length ≤ 1 then none
    else
      let distinct := dedupe (symbols.map upperStr)
      if distinct.length ≤ 1 then none
      else
        let hasDccLanguage := dccPhrases.any (fun p => sIncludes text p)
        if !hasDccLanguage then none
        else
          let raw := jsOr snap.textRaw ""
          let evidenceSnippets := findKeywordEvidence text raw dccPhrases 3
          let evidence := ("Detected currency markers: " ++ joinSep ", " distinct)
            :: evidenceSnippets
          createRiskFromCard "dcc_or_fx_markup" evidence ["dcc", "fx", "currency"]

/-- `DCC_MIXED_CURRENCY_RULE` from the Risk v2 rules.js. -/
def DCC_MIXED_CURRENCY_RULE : Rule :=
  { id := "dcc_mixed_currency_basic", evaluate := dccMixedCurrencyEval }

/-! ### Rule 3: arbitration / class-action waiver (`ARBITRATION_CLAUSE_RULE`) -/

/-- Arbitration and waiver keywords. -/
def arbitrationKeywords : List String :=
  ["binding arbitration", "mandatory arbitration", "arbitrate",
   "arbitration administered by", "american arbitration association",
   "aaa arbitration", "jams arbitration", "class action waiver",
   "waive your right to sue", "waive your right to a jury trial",
   "waive the right to participate in a class action",
   "waiver of class or representative actions",
   "disputes will be resolved by arbitration",
   "any dispute shall be resolved by arbitration",
   "you agree to submit to arbitration"]

/-- Body of `ARBITRATION_CLAUSE_RULE.evaluate`. -/
def arbitrationClauseEval (snap : Snapshot) : Option DetectedRisk :=
  let text := jsOr snap.textNormalized ""
  if text = "" then none
  else
    let hasHit := arbitrationKeywords.any (fun kw => sIncludes text kw)
    if !hasHit then none
    else
      let raw := jsOr snap.textRaw ""
      let evidence := findKeywordEvidence text raw arbitrationKeywords 3
      if evidence = [] then none
      else createRiskFromCard "mandatory_arbitration" evidence
        ["arbitration", "dispute_resolution"]

/-- `ARBITRATION_CLAUSE_RULE` from the Risk v2 rules.js. -/
def ARBITRATION_CLAUSE_RULE : Rule :=
  { id := "arbitration_clause_basic", evaluate := arbitrationClauseEval }

/-! ### Rule 4: auto-renewing subscriptions (`AUTO_RENEWAL_RULE`) -/

/-- Auto-renewal keywords. -/
def autoRenewalKeywords : List String :=
  ["auto-renew", "autorenew", "auto renew", "automatically renews",
   "automatic renewal", "recurring fee", "recurring charge",
   "recurring payment", "continuous subscription", "until you cancel",
   "continue to be billed", "charged on a recurring basis",
   "subscription will renew automatically"]

/-- Body of `AUTO_RENEWAL_RULE.evaluate`. -/
def autoRenewalEval (snap : Snapshot) : Option DetectedRisk :=
  let text := jsOr snap.textNormalized ""
  if text = "" then none
  else
    let hasHit := autoRenewalKeywords.any (fun kw => sIncludes text kw)
    if !hasHit then none
    else
      let raw := jsOr snap.textRaw ""
      let evidence := findKeywordEvidence text raw autoRenewalKeywords 3
      if evidence = [] then none
      else createRiskFromCard "auto_renewing_subscription" evidence
        ["subscription", "auto_renew"]

/-- `AUTO_RENEWAL_RULE` from the Risk v2 rules.js. -/
def AUTO_RENEWAL_RULE : Rule :=
  { id := "auto_renewal_basic", evaluate := autoRenewalEval }

/-! ### Rule 4b: free trial converting to paid (`TRIAL_AUTO_RENEW_RULE`) -/

/-- Trial context keywords. -/
def trialKeywords : List String :=
  ["free trial", "trial period", "trial offer", "start your trial",
   "sign up for your trial", "30-day trial", "14-day trial", "7-day trial",
   "30 day trial", "14 day trial", "7 day trial"]

/-- Post-trial keywords. -/
def postTrialKeywords : List String :=
  ["after your trial", "after the trial", "at the end of your trial",
   "at the end of the trial", "once the trial ends", "once your trial ends",
   "when your trial ends", "after the trial period", "after your trial period"]

/-- Billing keywords. -/
def billingKeywords : List String :=
  ["you will be charged", "you will be billed", "we will charge",
   "we will bill", "your card will be charged",
   "your credit card will be charged", "subscription will renew automatically",
   "renews automatically", "will renew automatically",
   "will automatically renew", "recurring subscription", "recurring billing",
   "recurring charges", "charged on a recurring basis", "until you cancel",
   "unless you cancel"]

/-- Body of `TRIAL_AUTO_RENEW_RULE.evaluate`. -/
def trialAutoRenewEval (snap : Snapshot) : Option DetectedRisk :=
  let text := jsOr snap.textNormalized ""
  if text = "" then none
  else
    let raw := jsOr snap.textRaw ""
    let lower := lowerStr text
    let trialContext := trialKeywords.any (fun kw => sIncludes lower kw)
    if !trialContext then none
    else
      let hasPostTrial := postTrialKeywords.any (fun kw => sIncludes lower kw)
      let hasBilling := billingKeywords.any (fun kw => sIncludes lower kw)
      if !hasPostTrial && !hasBilling then none
      else
        let evidence := findKeywordEvidence text raw
          (trialKeywords ++ postTrialKeywords ++ billingKeywords) 3
        if evidence = [] then none
        else createRiskFromCard "trial_converts_to_paid_subscription" evidence
          ["trial", "subscription", "auto_renew"]

/-- `TRIAL_AUTO_RENEW_RULE` from the Risk v2 rules.js. -/
def TRIAL_AUTO_RENEW_RULE : Rule :=
  { id := "trial_auto_renew_basic", evaluate := trialAutoRenewEval }

/-! ### Rule 5: unilateral terms changes (`UNILATERAL_CHANGES_RULE`) -/

/-- Unilateral-change keywords. -/
def unilateralKeywords : List String :=
  ["we may change these terms at any time",
   "we may modify these terms at any time",
   "we reserve the right to modify or update these terms",
   "we may update this agreement from time to time",
   "we may amend these terms without prior notice",
   "changes will be effective when posted",
   "we may change this policy at any time"]

/-- Body of `UNILATERAL_CHANGES_RULE.evaluate`. -/
def unilateralChangesEval (snap : Snapshot) : Option DetectedRisk :=
  let text := jsOr snap.textNormalized ""
  if text = "" then none
  else
    let hasHit := unilateralKeywords.any (fun kw => sIncludes text kw)
    if !hasHit then none
    else
      let raw := jsOr snap.textRaw ""
      let evidence := findKeywordEvidence text raw unilateralKeywords 3
      if evidence = [] then none
      else createRiskFromCard "unilateral_terms_changes" evidence
        ["unilateral_changes", "terms_updates"]

/-- `UNILATERAL_CHANGES_RULE` from the Risk v2 rules.js. -/
def UNILATERAL_CHANGES_RULE : Rule :=
  { id := "unilateral_changes_basic", evaluate := unilateralChangesEval }

/-! ### Rule 6: hidden / extra fees (`HIDDEN_FEES_RULE`) -/

/-- Strong resort/facility-style fee terms. -/
def strongFeeTerms : List String :=
  ["resort fee", "resort fees", "facility fee", "facility fees",
   "amenity fee", "amenity fees", "destination fee", "destination fees",
   "property fee", "property fees"]

/-- General booking/cleaning/service fee and tax terms. -/
def generalFeeTerms : List String :=
  ["service fee", "service fees", "booking fee", "booking fees",
   "processing fee", "processing fees", "handling fee", "handling fees",
   "convenience fee", "convenience fees", "cleaning fee", "cleaning fees",
   "extra fees", "extra fee", "additional fees", "additional fee",
   "extra charges", "extra charge", "additional charges", "additional charge",
   "mandatory fee", "mandatory fees", "fees not included", "taxes and fees",
   "before taxes and fees", "occupancy taxes", "occupancy tax", "tourist tax",
   "tourism tax", "local taxes and fees", "collected at property",
   "paid at property", "charged by the property"]

/-- Airbnb-specific extra-line-item phrases. -/
def airbnbPhrases : List String :=
  ["airbnb service fee", "occupancy taxes and fees", "taxes may be collected",
   "taxes and fees may apply"]

/-- The detector-authored evidence sentence for the resort/facility card. -/
def resortFeeEvidenceLine : String :=
  "Nightly rate may not include resort or facility fees that are collected separately at the property."

/-- The detector-authored evidence sentence for the generic extra-fee card. -/
def extraFeesEvidenceLine : String :=
  "The displayed price may exclude taxes, cleaning fees, or other mandatory charges that are added at checkout or collected at the property."

/-- Body of `HIDDEN_FEES_RULE.evaluate`.  Note that its evidence is a
fixed human-friendly sentence, not a slice of the page text. -/
def hiddenFeesEval (snap : Snapshot) : Option DetectedRisk :=
  let text := jsOr snap.textNormalized ""
  if text = "" then none
  else
    let url := jsOr snap.url ""
    let lower := lowerStr text
    let hasStrong := strongFeeTerms.any (fun kw => sIncludes lower kw)
    let hasGeneral0 := generalFeeTerms.any (fun kw => sIncludes lower kw)
    let hasGeneral :=
      if !hasStrong && !hasGeneral0 && sIncludes (lowerStr url) "airbnb." then
        airbnbPhrases.any (fun kw => sIncludes lower kw)
      else hasGeneral0
    if !hasStrong && !hasGeneral then none
    else if hasStrong then
      createRiskFromCard "resort_or_facility_fee" [resortFeeEvidenceLine]
        ["fees", "pricing"]
    else
      createRiskFromCard "extra_fees_not_in_base_price" [extraFeesEvidenceLine]
        ["fees", "pricing"]

/-- `HIDDEN_FEES_RULE` from the Risk v2 rules.js. -/
def HIDDEN_FEES_RULE : Rule :=
  { id := "hidden_fees_basic", evaluate := hiddenFeesEval }

/-! ### The rule catalog and `evaluateAll` -/

/-- `ALL_RULES` from the Risk v2 rules.js, in source order. -/
def ALL_RULES : List Rule :=
  [REFUND_KEYWORDS_RULE, REFUND_SHORT_WINDOW_RULE, REFUND_DELAY_RULE,
   REFUND_PERCENTAGE_EXPOSURE_RULE, DCC_MIXED_CURRENCY_RULE,
   ARBITRATION_CLAUSE_RULE, AUTO_RENEWAL_RULE, TRIAL_AUTO_RENEW_RULE,
   UNILATERAL_CHANGES_RULE, HIDDEN_FEES_RULE]

/-- `evaluateAll(snapshot)` from the Risk v2 rules.js: run every rule and
collect the non-null findings in order.  (The rules here are total; the
`try`/`catch` around each detector is modelled by `evaluateAllE` below.) -/
def evaluateAll (snap : Snapshot) : List DetectedRisk :=
  ALL_RULES.foldl
    (fun risks rule =>
      match rule.evaluate snap with
      | some r => risks ++ [r]
      | none => risks)
    []

/-- A detector as seen by the `try`/`catch` in `evaluateAll`: its
`evaluate` may also throw (modelled with `Except`, the error being the
thrown value that `console.error` logs). -/
structure FallibleRule where
  id : String
  evaluate : Snapshot → Except String (Option DetectedRisk)

/-- `evaluateAll` with the per-detector `try`/`catch` made explicit: a
thrown exception is caught and contributes no finding, and the loop
continues with the remaining detectors. -/
def evaluateAllE (rules : List FallibleRule) (snap : Snapshot) : List DetectedRisk :=
  rules.foldl
    (fun risks rule =>
      match rule.evaluate snap with
      | Except.error _ => risks
      | Except.ok none => risks
      | Except.ok (some r) => risks ++ [r])
    []

/-- View a total rule as a fallible one that never throws. -/
def liftRule (rule : Rule) : FallibleRule :=
  { id := rule.id, evaluate := fun snap => Except.ok (rule.evaluate snap) }

/-! ### Scoring and page classification (riskModel.js) -/

/-- `severityToScore(sev)` from riskModel.js: the fixed severity → score
mapping (`low=25, med=50, high=80`, anything else 0). -/
def severityToScore (sev : String) : Nat :=
  if sev = "high" then 80
  else if sev = "med" then 50
  else if sev = "low" then 25
  else 0

/-- The per-category score object of riskModel.js (four fixed keys). -/
structure CategoryScores where
  financial : Nat
  data_privacy : Nat
  content_ip : Nat
  legal_rights : Nat
deriving DecidableEq

/-- The zero score object `{financial: 0, data_privacy: 0, content_ip: 0,
legal_rights: 0}`. -/
def zeroScores : CategoryScores :=
  { financial := 0, data_privacy := 0, content_ip := 0, legal_rights := 0 }

/-- One step of the `computeCategoryScores` loop: risks with a falsy
category or severity are skipped; `base[r.category]` is raised to the
severity score when that key exists and the score is larger (an unknown
category key leaves the object unchanged, since `s > undefined` is
false). -/
def bumpCategory (scores : CategoryScores) (r : DetectedRisk) : CategoryScores :=
  if r.category = "" ∨ r.severity = "" then scores
  else
    let s := severityToScore r.severity
    if r.category = "financial" then
      { scores with financial := if scores.financial < s then s else scores.financial }
    else if r.category = "data_privacy" then
      { scores with data_privacy := if scores.data_privacy < s then s else scores.data_privacy }
    else if r.category = "content_ip" then
      { scores with content_ip := if scores.content_ip < s then s else scores.content_ip }
    else if r.category = "legal_rights" then
      { scores with legal_rights := if scores.legal_rights < s then s else scores.legal_rights }
    else scores

/-- `computeCategoryScores(risks)` from riskModel.js. -/
def computeCategoryScores (risks : List DetectedRisk) : CategoryScores :=
  risks.foldl bumpCategory zeroScores

/-- `computeGlobalRiskScore(categoryScores)` from riskModel.js:
`Math.max` over the four values. -/
def computeGlobalRiskScore (cs : CategoryScores) : Nat :=
  max (max cs.financial cs.data_privacy) (max cs.content_ip cs.legal_rights)

/-- The URL patterns that make `classifyPageMode` return `"auth"`. -/
def authUrlPatterns : List String :=
  ["/login", "/signin", "/sign-in", "/auth", "/register", "/signup"]

/-- `classifyPageMode(url, textLength)` from riskModel.js
(`LOW_CONTENT_THRESHOLD = 800`). -/
def classifyPageMode (url : String) (textLength : Nat) : String :=
  let lowerUrl := lowerStr url
  let looksAuth := authUrlPatterns.any (fun p => sIncludes lowerUrl p)
  if looksAuth then "auth"
  else if textLength < 800 then "low-content"
  else "content-rich"

/-- `computeHasMeaningfulContent(pageMode, textLength)` from riskModel.js
(`MIN_MEANINGFUL_TEXT = 600`). -/
def computeHasMeaningfulContent (pageMode : String) (textLength : Nat) : Bool :=
  if pageMode = "content-rich" then true
  else if pageMode = "auth" then false
  else 600 ≤ textLength

/-! ### The Risk v2 engine (`evaluatePage` in riskEngine.js)

The deployed engine prefers the riskModel.js helpers
(`computeCategoryScores`, `computeGlobalRiskScore`, `classifyPageMode`,
`computeHasMeaningfulContent`) over its local fallbacks; that wiring is
what is embedded here.  `locationHref` stands for `window.location.href`,
the fallback used when the snapshot carries no `url`. -/

/-- `computeOverallLevel(riskScore)` from the Risk v2 riskEngine.js (the
`> 0` and `0` branches both return `"LOW"`). -/
def computeOverallLevel (riskScore : Nat) : String :=
  if 70 ≤ riskScore then "HIGH"
  else if 40 ≤ riskScore then "MEDIUM"
  else "LOW"

/-- The result object of `evaluatePage` (`overallScore` is the legacy
alias of `riskScore`). -/
structure RiskResult where
  risks : List DetectedRisk
  categoryScores : CategoryScores
  riskScore : Nat
  overallLevel : String
  hasMeaningfulContent : Bool
  pageMode : String
  overallScore : Nat
deriving DecidableEq

/-- `evaluatePage(snapshot)` from the Risk v2 riskEngine.js: a non-object
snapshot degrades to `{}`, all rules are run, category scores and the
global score are computed by the riskModel.js helpers, and page mode /
content significance come from the raw text length and the URL. -/
def evaluatePage (locationHref : String) (snapshot : Option Snapshot) : RiskResult :=
  let safe := snapshot.getD emptySnapshot
  let risks := evaluateAll safe
  let categoryScores := computeCategoryScores risks
  let riskScore := computeGlobalRiskScore categoryScores
  let rawText := jsOr safe.textRaw (jsOr safe.textNormalized "")
  let url := jsOr safe.url locationHref
  let textLength := rawText.length
  let pageMode := classifyPageMode url textLength
  let hasMeaningfulContent := computeHasMeaningfulContent pageMode textLength
  let overallLevel := computeOverallLevel riskScore
  { risks := risks, categoryScores := categoryScores, riskScore := riskScore,
    overallLevel := overallLevel, hasMeaningfulContent := hasMeaningfulContent,
    pageMode := pageMode, overallScore := riskScore }

/-! ### Specification-side definitions

These definitions restate properties in the words of the specification,
to be compared with the code-derived definitions above. -/

/-- The specification's category score: the maximum of the severity
scores of the risks in category `c`, and 0 when there are none. -/
def specCategoryScore (risks : List DetectedRisk) (c : String) : Nat :=
  ((risks.filter (fun r => r.category = c)).map
    (fun r => severityToScore r.severity)).foldr max 0

/-- Projection of the category-score object at a category name. -/
def catScoreProj (cs : CategoryScores) (c : String) : Nat :=
  if c = "financial" then cs.financial
  else if c = "data_privacy" then cs.data_privacy
  else if c = "content_ip" then cs.content_ip
  else if c = "legal_rights" then cs.legal_rights
  else 0

/-- The specification's "verbatim substring of rawText modulo whitespace
collapsing": after collapsing whitespace runs and trimming on both sides,
the snippet occurs verbatim inside the raw text. -/
def wsSubstring (snippet rawText : String) : Bool :=
  containsL (trimL (squeeze rawText.data)) (trimL (squeeze snippet.data))

/-- The property claimed for every evidence snippet of every finding:
non-empty, at most 220 characters, and a verbatim substring of the
snapshot's raw text modulo whitespace collapsing. -/
def evidenceClaimHolds (snap : Snapshot) : Bool :=
  (evaluateAll snap).all fun r =>
    r.evidence.all fun e =>
      !(e == "") && (e.length ≤ 220 : Bool) && wsSubstring e (jsOr snap.textRaw "")

/-! ### Helper lemmas: the evidence extractor -/

/-- `trim` never lengthens a character list. -/
theorem trimL_length_le (l : List Char) : (trimL l).length ≤ l.length := by
  unfold trimL
  calc ((l.dropWhile isJsWs).reverse.dropWhile isJsWs).reverse.length
      = ((l.dropWhile isJsWs).reverse.dropWhile isJsWs).length := by
        rw [List.length_reverse]
    _ ≤ (l.dropWhile isJsWs).reverse.length :=
        (List.dropWhile_sublist _).length_le
    _ = (l.dropWhile isJsWs).length := by rw [List.length_reverse]
    _ ≤ l.length := (List.dropWhile_sublist _).length_le

/-- The truncation step never returns more than `maxLen` characters (for
any positive cap). -/
theorem truncateSnippet_length_le (maxLen : Nat) (hpos : 0 < maxLen)
    (txt : List Char) : (truncateSnippet maxLen txt).length ≤ maxLen := by
  unfold truncateSnippet
  split
  · simp [String.length]
  · split
    · next hne hgt =>
      simp only [String.length, List.length_append, List.length_cons,
        List.length_nil]
      have h1 : ((txt.take (maxLen - 1)).take
          (truncBoundary (txt.take (maxLen - 1)))).length ≤ maxLen - 1 := by
        rw [List.length_take, List.length_take]; omega
      have h3 := trimL_length_le ((txt.take (maxLen - 1)).take
        (truncBoundary (txt.take (maxLen - 1))))
      omega
    · next hne hle =>
      simp only [String.length]
      omega

/-- `cleanEvidenceSnippet` with the default cap returns at most 220
characters. -/
theorem cleanEvidence_length_le (s : String) : (cleanEvidence s 220).length ≤ 220 :=
  truncateSnippet_length_le 220 (by omega) _

/-- Invariant of the occurrence loop: it only ever appends snippets that
survived cleaning non-empty, and cleaned snippets are at most 220
characters. -/
theorem evOcc_inv (raw lraw needle : List Char) (maxS : Nat) :
    ∀ (fuel idx : Nat) (snips : List String),
      (∀ e ∈ snips, e ≠ "" ∧ e.length ≤ 220) →
      ∀ e ∈ evOcc raw lraw needle maxS fuel idx snips, e ≠ "" ∧ e.length ≤ 220 := by
  intro fuel
  induction fuel with
  | zero => intro idx snips h e he; exact h e he
  | succ n ih =>
    intro idx snips h e he
    simp only [evOcc] at he
    cases hio : indexOfFrom lraw needle idx with
    | none => simp only [hio] at he; exact h e he
    | some i =>
      simp only [hio] at he
      by_cases hlen : snips.length < maxS
      · rw [if_pos hlen] at he
        refine ih _ _ ?_ e he
        intro e' he'
        set cleaned := cleanEvidence
          ⟨(raw.drop (sentStart lraw i)).take
            ((if sentEnd lraw (i + needle.length) ≤ sentStart lraw i then
                min lraw.length (i + needle.length + 80)
              else sentEnd lraw (i + needle.length)) - sentStart lraw i)⟩ 220
          with hcl
        by_cases hg : (decide (cleaned ≠ "") &&
            !((snips.map lowerStr).contains (lowerStr cleaned))) = true
        · rw [if_pos hg] at he'
          rcases List.mem_append.mp he' with hold | hnew
          · exact h e' hold
          · have he'' : e' = cleaned := List.mem_singleton.mp hnew
            subst he''
            have hne : cleaned ≠ "" := by
              have := (Bool.and_eq_true _ _).mp hg
              exact of_decide_eq_true this.1
            exact ⟨hne, hcl ▸ cleanEvidence_length_le _⟩
        · rw [if_neg hg] at he'
          exact h e' he'
      · rw [if_neg hlen] at he
        exact h e he

/-- Invariant of the keyword loop of `findKeywordEvidence`. -/
theorem evFold_inv (raw : String) (lraw : List Char) (maxS fuel : Nat) :
    ∀ (kws : List String) (acc : List String),
      (∀ e ∈ acc, e ≠ "" ∧ e.length ≤ 220) →
      ∀ e ∈ kws.foldl
        (fun snips kw =>
          if snips.length ≥ maxS then snips
          else evOcc raw.data lraw (lowerStr kw).data maxS fuel 0 snips) acc,
        e ≠ "" ∧ e.length ≤ 220 := by
  intro kws
  induction kws with
  | nil => intro acc h e he; exact h e he
  | cons kw t ih =>
    intro acc h e he
    rw [List.foldl_cons] at he
    by_cases hlen : acc.length ≥ maxS
    · rw [if_pos hlen] at he; exact ih acc h e he
    · rw [if_neg hlen] at he
      exact ih _ (evOcc_inv raw.data lraw (lowerStr kw).data maxS fuel 0 acc h) e he

/-- Every snippet returned by `findKeywordEvidence` is non-empty and at
most 220 characters long. -/
theorem mem_findKeywordEvidence (tn raw : String) (kws : List String) (n : Nat)
    (e : String) (he : e ∈ findKeywordEvidence tn raw kws n) :
    e ≠ "" ∧ e.length ≤ 220 := by
  unfold findKeywordEvidence at he
  split at he
  · cases he
  · exact evFold_inv raw (raw.data.map Char.toLower) n (raw.data.length + 1)
      kws [] (by intro e h; cases h) e he

/-! ### Helper lemmas: registry and findings -/

/-- Every card in the registry carries the id it is keyed under. -/
theorem registry_ids : ∀ p ∈ RISK_CARDS, p.2.id = p.1 := by decide

/-- Generic association-list fact: a successful lookup in a list whose
values carry their keys returns a value carrying the looked-up key. -/
theorem lookup_id_generic (l : List (String × RiskCardDefinition))
    (hl : ∀ p ∈ l, p.2.id = p.1) (cid : String) (d : RiskCardDefinition)
    (h : l.lookup cid = some d) : d.id = cid := by
  induction l with
  | nil => cases h
  | cons hd tl ih =>
    rw [List.lookup] at h
    by_cases hc : cid == hd.1
    · rw [hc] at h
      simp only [Option.some.injEq] at h
      subst h
      exact (hl hd (List.mem_cons_self hd tl)).trans (eq_of_beq hc).symm
    · rw [Bool.not_eq_true] at hc
      rw [hc] at h
      exact ih (fun p hp => hl p (List.mem_cons_of_mem hd hp)) h

/-- A successful `RISK_CARDS[cardId]` lookup returns the card with that
id. -/
theorem lookupCard_id (cid : String) (d : RiskCardDefinition)
    (h : lookupCard cid = some d) : d.id = cid :=
  lookup_id_generic RISK_CARDS registry_ids cid d h

/-- When `createRiskFromCard` produces a finding, the finding carries the
requested card id and exactly the evidence list passed in. -/
theorem createRisk_some {cid : String} {ev tg : List String} {r : DetectedRisk}
    (h : createRiskFromCard cid ev tg = some r) : r.id = cid ∧ r.evidence = ev := by
  unfold createRiskFromCard at h
  cases hl : lookupCard cid with
  | none => rw [hl] at h; cases h
  | some d =>
    rw [hl] at h
    simp only [Option.some.injEq] at h
    subst h
    exact ⟨lookupCard_id cid d hl, rfl⟩

/-- An unknown card id yields no finding (`createRiskFromCard` logs and
returns `null`). -/
theorem createRisk_none (cid : String) (ev tg : List String)
    (h : lookupCard cid = none) : createRiskFromCard cid ev tg = none := by
  unfold createRiskFromCard
  rw [h]

/-- Membership in the `evaluateAll` accumulator loop. -/
theorem evalFold_mem (snap : Snapshot) (rules : List Rule)
    (acc : List DetectedRisk) (r : DetectedRisk) :
    r ∈ rules.foldl
      (fun risks rule =>
        match rule.evaluate snap with
        | some x => risks ++ [x]
        | none => risks) acc ↔
    r ∈ acc ∨ ∃ rule, rule ∈ rules ∧ rule.evaluate snap = some r := by
  induction rules generalizing acc with
  | nil => simp
  | cons hd tl ih =>
    rw [List.foldl_cons]
    cases h : hd.evaluate snap with
    | none =>
      simp only [h, ih]
      constructor
      · rintro (ha | ⟨rule, hm, he⟩)
        · exact Or.inl ha
        · exact Or.inr ⟨rule, List.mem_cons_of_mem hd hm, he⟩
      · rintro (ha | ⟨rule, hm, he⟩)
        · exact Or.inl ha
        · rcases List.mem_cons.mp hm with heq | hm'
          · subst heq; rw [h] at he; cases he
          · exact Or.inr ⟨rule, hm', he⟩
    | some x =>
      simp only [h, ih, List.mem_append, List.mem_singleton]
      constructor
      · rintro ((ha | hx) | ⟨rule, hm, he⟩)
        · exact Or.inl ha
        · subst hx
          exact Or.inr ⟨hd, List.mem_cons_self hd tl, h⟩
        · exact Or.inr ⟨rule, List.mem_cons_of_mem hd hm, he⟩
      · rintro (ha | ⟨rule, hm, he⟩)
        · exact Or.inl (Or.inl ha)
        · rcases List.mem_cons.mp hm with heq | hm'
          · subst heq
            rw [h] at he
            exact Or.inl (Or.inr (Option.some.injEq _ _ ▸ he).symm)
          · exact Or.inr ⟨rule, hm', he⟩

/-- A risk is in the output of `evaluateAll` exactly when some rule of the
catalog produced it. -/
theorem mem_evaluateAll (snap : Snapshot) (r : DetectedRisk) :
    r ∈ evaluateAll snap ↔ ∃ rule, rule ∈ ALL_RULES ∧ rule.evaluate snap = some r := by
  unfold evaluateAll
  rw [evalFold_mem]
  simp

/-- Package the finding-shape facts for a detector that passes a
non-empty evidence list of non-empty snippets to `createRiskFromCard`. -/
theorem createdRisk_props {cid : String} {ev tg : List String} {r : DetectedRisk}
    (h : createRiskFromCard cid ev tg = some r)
    (hev : ev ≠ []) (hmem : ∀ e ∈ ev, e ≠ "") :
    r.id = cid ∧ r.evidence ≠ [] ∧ ∀ e ∈ r.evidence, e ≠ "" := by
  obtain ⟨hid, heq⟩ := createRisk_some h
  exact ⟨hid, heq ▸ hev, heq ▸ hmem⟩

/-- Shape of any finding of `REFUND_KEYWORDS_RULE`: one of its two cards,
with a non-empty list of non-empty extractor snippets as evidence. -/
theorem refundKeywordsEval_some {snap : Snapshot} {r : DetectedRisk}
    (h : refundKeywordsEval snap = some r) :
    (r.id = "non_refundable_or_final_sale" ∨ r.id = "short_refund_or_return_window") ∧
      r.evidence ≠ [] ∧ ∀ e ∈ r.evidence, e ≠ "" := by
  simp only [refundKeywordsEval] at h
  repeat' split at h
  all_goals try exact Option.noConfusion h
  all_goals {
    have hp := createdRisk_props h (by assumption)
      (fun e he => (mem_findKeywordEvidence _ _ _ _ e he).1)
    exact ⟨by first | exact Or.inl hp.1 | exact Or.inr hp.1, hp.2⟩ }

/-- The currency-marker summary line is never the empty string. -/
theorem detMarkers_ne_empty (s : String) : ("Detected currency markers: " ++ s) ≠ "" := by
  intro hc
  have hlen := congrArg String.length hc
  simp only [String.length_append, String.length_empty] at hlen
  have h27 : String.length "Detected currency markers: " = 27 := rfl
  omega

/-- A produced exposure line is never the empty string. -/
theorem buildExposureLine_ne_empty {t p : ℚ} {sym line : String}
    (h : buildExposureLine t p sym = some line) : line ≠ "" := by
  unfold buildExposureLine at h
  split at h
  · cases h
  · simp only [Option.some.injEq] at h
    subst h
    intro hc
    have hlen := congrArg String.length hc
    simp only [String.length_append, String.length_empty] at hlen
    have h32 : String.length "If your total booking is around " = 32 := rfl
    omega

/-- Shape of any finding of `REFUND_SHORT_WINDOW_RULE`: one of its two
window cards, with non-empty extractor evidence. -/
theorem refundShortWindowEval_some {snap : Snapshot} {r : DetectedRisk}
    (h : refundShortWindowEval snap = some r) :
    (r.id = "ultra_short_refund_window" ∨ r.id = "short_refund_or_return_window") ∧
      r.evidence ≠ [] ∧ ∀ e ∈ r.evidence, e ≠ "" := by
  simp only [refundShortWindowEval] at h
  repeat' split at h
  all_goals try exact Option.noConfusion h
  all_goals {
    have hp := createdRisk_props h (by assumption)
      (fun e he => (mem_findKeywordEvidence _ _ _ _ e he).1)
    exact ⟨by first | exact Or.inl hp.1 | exact Or.inr hp.1, hp.2⟩ }

/-- Shape of any finding of `REFUND_DELAY_RULE`. -/
theorem refundDelayEval_some {snap : Snapshot} {r : DetectedRisk}
    (h : refundDelayEval snap = some r) :
    r.id = "delayed_refund_processing" ∧
      r.evidence ≠ [] ∧ ∀ e ∈ r.evidence, e ≠ "" := by
  simp only [refundDelayEval] at h
  repeat' split at h
  all_goals try exact Option.noConfusion h
  all_goals {
    exact createdRisk_props h (by assumption)
      (fun e he => (mem_findKeywordEvidence _ _ _ _ e he).1) }

/-- Every string in an exposure block is non-empty. -/
theorem mem_exposureFor {snap : Snapshot} {p : Nat} {e : String}
    (he : e ∈ exposureFor snap p) : e ≠ "" := by
  unfold exposureFor at he
  split at he
  · split at he
    · split at he
      · rw [List.mem_singleton] at he
        subst he
        exact buildExposureLine_ne_empty (by assumption)
      · cases he
    · cases he
  · cases he

/-- Shape of any finding of `REFUND_PERCENTAGE_EXPOSURE_RULE`: the
short-window card, with evidence made of extractor snippets and possibly
a (non-empty) exposure line. -/
theorem refundPercentageEval_some {snap : Snapshot} {r : DetectedRisk}
    (h : refundPercentageEval snap = some r) :
    r.id = "short_refund_or_return_window" ∧
      r.evidence ≠ [] ∧ ∀ e ∈ r.evidence, e ≠ "" := by
  simp only [refundPercentageEval] at h
  repeat' split at h
  all_goals try exact Option.noConfusion h
  all_goals {
    refine createdRisk_props h (by assumption) (fun e he => ?_)
    rcases List.mem_append.mp he with h1 | h2
    · exact (mem_findKeywordEvidence _ _ _ _ e h1).1
    · exact mem_exposureFor h2 }

/-- Shape of any finding of `DCC_MIXED_CURRENCY_RULE`: the DCC card, with
the currency-marker line plus extractor snippets as evidence. -/
theorem dccMixedCurrencyEval_some {snap : Snapshot} {r : DetectedRisk}
    (h : dccMixedCurrencyEval snap = some r) :
    r.id = "dcc_or_fx_markup" ∧
      r.evidence ≠ [] ∧ ∀ e ∈ r.evidence, e ≠ "" := by
  simp only [dccMixedCurrencyEval] at h
  repeat' split at h
  all_goals try exact Option.noConfusion h
  all_goals {
    refine createdRisk_props h (by simp) (fun e he => ?_)
    rcases List.mem_cons.mp he with h1 | h2
    · subst h1; exact detMarkers_ne_empty _
    · exact (mem_findKeywordEvidence _ _ _ _ e h2).1 }

/-- Shape of any finding of `ARBITRATION_CLAUSE_RULE`. -/
theorem arbitrationClauseEval_some {snap : Snapshot} {r : DetectedRisk}
    (h : arbitrationClauseEval snap = some r) :
    r.id = "mandatory_arbitration" ∧
      r.evidence ≠ [] ∧ ∀ e ∈ r.evidence, e ≠ "" := by
  simp only [arbitrationClauseEval] at h
  repeat' split at h
  all_goals try exact Option.noConfusion h
  all_goals {
    exact createdRisk_props h (by assumption)
      (fun e he => (mem_findKeywordEvidence _ _ _ _ e he).1) }

/-- Shape of any finding of `AUTO_RENEWAL_RULE`. -/
theorem autoRenewalEval_some {snap : Snapshot} {r : DetectedRisk}
    (h : autoRenewalEval snap = some r) :
    r.id = "auto_renewing_subscription" ∧
      r.evidence ≠ [] ∧ ∀ e ∈ r.evidence, e ≠ "" := by
  simp only [autoRenewalEval] at h
  repeat' split at h
  all_goals try exact Option.noConfusion h
  all_goals {
    exact createdRisk_props h (by assumption)
      (fun e he => (mem_findKeywordEvidence _ _ _ _ e he).1) }

/-- Shape of any finding of `TRIAL_AUTO_RENEW_RULE`. -/
theorem trialAutoRenewEval_some {snap : Snapshot} {r : DetectedRisk}
    (h : trialAutoRenewEval snap = some r) :
    r.id = "trial_converts_to_paid_subscription" ∧
      r.evidence ≠ [] ∧ ∀ e ∈ r.evidence, e ≠ "" := by
  simp only [trialAutoRenewEval] at h
  repeat' split at h
  all_goals try exact Option.noConfusion h
  all_goals {
    exact createdRisk_props h (by assumption)
      (fun e he => (mem_findKeywordEvidence _ _ _ _ e he).1) }

/-- Shape of any finding of `UNILATERAL_CHANGES_RULE`. -/
theorem unilateralChangesEval_some {snap : Snapshot} {r : DetectedRisk}
    (h : unilateralChangesEval snap = some r) :
    r.id = "unilateral_terms_changes" ∧
      r.evidence ≠ [] ∧ ∀ e ∈ r.evidence, e ≠ "" := by
  simp only [unilateralChangesEval] at h
  repeat' split at h
  all_goals try exact Option.noConfusion h
  all_goals {
    exact createdRisk_props h (by assumption)
      (fun e he => (mem_findKeywordEvidence _ _ _ _ e he).1) }

/-- Shape of any finding of `HIDDEN_FEES_RULE`: one of its two fee cards,
with a fixed non-empty evidence sentence. -/
theorem hiddenFeesEval_some {snap : Snapshot} {r : DetectedRisk}
    (h : hiddenFeesEval snap = some r) :
    (r.id = "resort_or_facility_fee" ∨ r.id = "extra_fees_not_in_base_price") ∧
      r.evidence ≠ [] ∧ ∀ e ∈ r.evidence, e ≠ "" := by
  simp only [hiddenFeesEval] at h
  repeat' split at h
  all_goals try exact Option.noConfusion h
  all_goals {
    have hp := createdRisk_props h (by simp)
      (fun e he => by
        rw [List.mem_singleton] at he
        subst he
        decide)
    exact ⟨by first | exact Or.inl hp.1 | exact Or.inr hp.1, hp.2⟩ }

/-! ### Helper lemmas: the category scorer -/

/-- Effect of one scorer step on the `financial` slot. -/
theorem bump_financial (acc : CategoryScores) (r : DetectedRisk) :
    (bumpCategory acc r).financial =
      if r.category = "financial" ∧ r.severity ≠ "" then
        max acc.financial (severityToScore r.severity)
      else acc.financial := by
  unfold bumpCategory
  split_ifs <;> simp_all [Nat.max_def] <;>
    first
      | rfl
      | omega
      | (split_ifs <;> omega)

/-- Effect of one scorer step on the `data_privacy` slot. -/
theorem bump_data_privacy (acc : CategoryScores) (r : DetectedRisk) :
    (bumpCategory acc r).data_privacy =
      if r.category = "data_privacy" ∧ r.severity ≠ "" then
        max acc.data_privacy (severityToScore r.severity)
      else acc.data_privacy := by
  unfold bumpCategory
  split_ifs <;> simp_all [Nat.max_def] <;>
    first
      | rfl
      | omega
      | (split_ifs <;> omega)

/-- Effect of one scorer step on the `content_ip` slot. -/
theorem bump_content_ip (acc : CategoryScores) (r : DetectedRisk) :
    (bumpCategory acc r).content_ip =
      if r.category = "content_ip" ∧ r.severity ≠ "" then
        max acc.content_ip (severityToScore r.severity)
      else acc.content_ip := by
  unfold bumpCategory
  split_ifs <;> simp_all [Nat.max_def] <;>
    first
      | rfl
      | omega
      | (split_ifs <;> omega)

/-- Effect of one scorer step on the `legal_rights` slot. -/
theorem bump_legal_rights (acc : CategoryScores) (r : DetectedRisk) :
    (bumpCategory acc r).legal_rights =
      if r.category = "legal_rights" ∧ r.severity ≠ "" then
        max acc.legal_rights (severityToScore r.severity)
      else acc.legal_rights := by
  unfold bumpCategory
  split_ifs <;> simp_all [Nat.max_def] <;>
    first
      | rfl
      | omega
      | (split_ifs <;> omega)

/-- The scorer loop computes the running maximum for `financial`. -/
theorem foldBump_financial (risks : List DetectedRisk) (acc : CategoryScores) :
    (risks.foldl bumpCategory acc).financial =
      max acc.financial (specCategoryScore risks "financial") := by
  induction risks generalizing acc with
  | nil => simp [specCategoryScore]
  | cons r t ih =>
    rw [List.foldl_cons, ih, bump_financial]
    by_cases hc : r.category = "financial"
    · by_cases hs : r.severity = ""
      · rw [if_neg (by simp [hs])]
        unfold specCategoryScore
        rw [List.filter_cons, if_pos (by simp [hc])]
        simp [hs, severityToScore, specCategoryScore]
      · rw [if_pos ⟨hc, hs⟩]
        unfold specCategoryScore
        rw [List.filter_cons, if_pos (by simp [hc])]
        simp only [List.map_cons, List.foldr_cons]
        exact Nat.max_assoc _ _ _
    · rw [if_neg (fun hcc => hc hcc.1)]
      unfold specCategoryScore
      rw [List.filter_cons, if_neg (by simp [hc])]

/-- The scorer loop computes the running maximum for `data_privacy`. -/
theorem foldBump_data_privacy (risks : List DetectedRisk) (acc : CategoryScores) :
    (risks.foldl bumpCategory acc).data_privacy =
      max acc.data_privacy (specCategoryScore risks "data_privacy") := by
  induction risks generalizing acc with
  | nil => simp [specCategoryScore]
  | cons r t ih =>
    rw [List.foldl_cons, ih, bump_data_privacy]
    by_cases hc : r.category = "data_privacy"
    · by_cases hs : r.severity = ""
      · rw [if_neg (by simp [hs])]
        unfold specCategoryScore
        rw [List.filter_cons, if_pos (by simp [hc])]
        simp [hs, severityToScore, specCategoryScore]
      · rw [if_pos ⟨hc, hs⟩]
        unfold specCategoryScore
        rw [List.filter_cons, if_pos (by simp [hc])]
        simp only [List.map_cons, List.foldr_cons]
        exact Nat.max_assoc _ _ _
    · rw [if_neg (fun hcc => hc hcc.1)]
      unfold specCategoryScore
      rw [List.filter_cons, if_neg (by simp [hc])]

/-- The scorer loop computes the running maximum for `content_ip`. -/
theorem foldBump_content_ip (risks : List DetectedRisk) (acc : CategoryScores) :
    (risks.foldl bumpCategory acc).content_ip =
      max acc.content_ip (specCategoryScore risks "content_ip") := by
  induction risks generalizing acc with
  | nil => simp [specCategoryScore]
  | cons r t ih =>
    rw [List.foldl_cons, ih, bump_content_ip]
    by_cases hc : r.category = "content_ip"
    · by_cases hs : r.severity = ""
      · rw [if_neg (by simp [hs])]
        unfold specCategoryScore
        rw [List.filter_cons, if_pos (by simp [hc])]
        simp [hs, severityToScore, specCategoryScore]
      · rw [if_pos ⟨hc, hs⟩]
        unfold specCategoryScore
        rw [List.filter_cons, if_pos (by simp [hc])]
        simp only [List.map_cons, List.foldr_cons]
        exact Nat.max_assoc _ _ _
    · rw [if_neg (fun hcc => hc hcc.1)]
      unfold specCategoryScore
      rw [List.filter_cons, if_neg (by simp [hc])]

/-- The scorer loop computes the running maximum for `legal_rights`. -/
theorem foldBump_legal_rights (risks : List DetectedRisk) (acc : CategoryScores) :
    (risks.foldl bumpCategory acc).legal_rights =
      max acc.legal_rights (specCategoryScore risks "legal_rights") := by
  induction risks generalizing acc with
  | nil => simp [specCategoryScore]
  | cons r t ih =>
    rw [List.foldl_cons, ih, bump_legal_rights]
    by_cases hc : r.category = "legal_rights"
    · by_cases hs : r.severity = ""
      · rw [if_neg (by simp [hs])]
        unfold specCategoryScore
        rw [List.filter_cons, if_pos (by simp [hc])]
        simp [hs, severityToScore, specCategoryScore]
      · rw [if_pos ⟨hc, hs⟩]
        unfold specCategoryScore
        rw [List.filter_cons, if_pos (by simp [hc])]
        simp only [List.map_cons, List.foldr_cons]
        exact Nat.max_assoc _ _ _
    · rw [if_neg (fun hcc => hc hcc.1)]
      unfold specCategoryScore
      rw [List.filter_cons, if_neg (by simp [hc])]

/-! ### Helper lemmas: degraded snapshots and the DCC gate -/

/-- Trimming the empty string gives the empty string. -/
theorem trimStr_empty : trimStr "" = "" := rfl

/-- `REFUND_KEYWORDS_RULE` yields nothing on empty normalized text. -/
theorem refundKeywordsEval_empty {snap : Snapshot}
    (h : jsOr snap.textNormalized "" = "") : refundKeywordsEval snap = none := by
  simp [refundKeywordsEval, h]

/-- `REFUND_SHORT_WINDOW_RULE` yields nothing on empty normalized text. -/
theorem refundShortWindowEval_empty {snap : Snapshot}
    (h : jsOr snap.textNormalized "" = "") : refundShortWindowEval snap = none := by
  simp [refundShortWindowEval, h]

/-- `REFUND_DELAY_RULE` yields nothing on empty normalized text. -/
theorem refundDelayEval_empty {snap : Snapshot}
    (h : jsOr snap.textNormalized "" = "") : refundDelayEval snap = none := by
  simp [refundDelayEval, h]

/-- `REFUND_PERCENTAGE_EXPOSURE_RULE` yields nothing on empty normalized
text. -/
theorem refundPercentageEval_empty {snap : Snapshot}
    (h : jsOr snap.textNormalized "" = "") : refundPercentageEval snap = none := by
  simp [refundPercentageEval, h]

/-- `DCC_MIXED_CURRENCY_RULE` yields nothing on empty normalized text. -/
theorem dccMixedCurrencyEval_empty {snap : Snapshot}
    (h : jsOr snap.textNormalized "" = "") : dccMixedCurrencyEval snap = none := by
  simp [dccMixedCurrencyEval, h, trimStr_empty]

/-- `ARBITRATION_CLAUSE_RULE` yields nothing on empty normalized text. -/
theorem arbitrationClauseEval_empty {snap : Snapshot}
    (h : jsOr snap.textNormalized "" = "") : arbitrationClauseEval snap = none := by
  simp [arbitrationClauseEval, h]

/-- `AUTO_RENEWAL_RULE` yields nothing on empty normalized text. -/
theorem autoRenewalEval_empty {snap : Snapshot}
    (h : jsOr snap.textNormalized "" = "") : autoRenewalEval snap = none := by
  simp [autoRenewalEval, h]

/-- `TRIAL_AUTO_RENEW_RULE` yields nothing on empty normalized text. -/
theorem trialAutoRenewEval_empty {snap : Snapshot}
    (h : jsOr snap.textNormalized "" = "") : trialAutoRenewEval snap = none := by
  simp [trialAutoRenewEval, h]

/-- `UNILATERAL_CHANGES_RULE` yields nothing on empty normalized text. -/
theorem unilateralChangesEval_empty {snap : Snapshot}
    (h : jsOr snap.textNormalized "" = "") : unilateralChangesEval snap = none := by
  simp [unilateralChangesEval, h]

/-- `HIDDEN_FEES_RULE` yields nothing on empty normalized text. -/
theorem hiddenFeesEval_empty {snap : Snapshot}
    (h : jsOr snap.textNormalized "" = "") : hiddenFeesEval snap = none := by
  simp [hiddenFeesEval, h]

/-- With empty normalized text every detector declines, so the scan
returns no risks at all. -/
theorem evaluateAll_empty {snap : Snapshot}
    (h : jsOr snap.textNormalized "" = "") : evaluateAll snap = [] := by
  simp only [evaluateAll, ALL_RULES, List.foldl_cons, List.foldl_nil,
    REFUND_KEYWORDS_RULE, REFUND_SHORT_WINDOW_RULE, REFUND_DELAY_RULE,
    REFUND_PERCENTAGE_EXPOSURE_RULE, DCC_MIXED_CURRENCY_RULE,
    ARBITRATION_CLAUSE_RULE, AUTO_RENEWAL_RULE, TRIAL_AUTO_RENEW_RULE,
    UNILATERAL_CHANGES_RULE, HIDDEN_FEES_RULE,
    refundKeywordsEval_empty h, refundShortWindowEval_empty h,
    refundDelayEval_empty h, refundPercentageEval_empty h,
    dccMixedCurrencyEval_empty h, arbitrationClauseEval_empty h,
    autoRenewalEval_empty h, trialAutoRenewEval_empty h,
    unilateralChangesEval_empty h, hiddenFeesEval_empty h]

/-- A page with no text is never "meaningful", whatever its URL. -/
theorem meaningless_when_empty (url : String) :
    computeHasMeaningfulContent (classifyPageMode url 0) 0 = false := by
  unfold classifyPageMode
  norm_num
  split_ifs <;> decide

/-- Without conversion language the DCC detector declines. -/
theorem dccEval_none_of_noLanguage {snap : Snapshot}
    (hdcc : dccPhrases.any
      (fun p => sIncludes (trimStr (jsOr snap.textNormalized "")) p) = false) :
    dccMixedCurrencyEval snap = none := by
  simp only [dccMixedCurrencyEval]
  rw [hdcc]
  simp only [Bool.not_false, if_true]
  split_ifs <;> rfl

/-! ### Helper lemmas: substring search under character mapping -/

/-- Prefix tests survive a character map. -/
theorem isPrefixL_map (f : Char → Char) :
    ∀ (n hay : List Char), isPrefixL n hay = true →
      isPrefixL (n.map f) (hay.map f) = true := by
  intro n
  induction n with
  | nil => intro hay _; rfl
  | cons a as ih =>
    intro hay h
    cases hay with
    | nil => cases h
    | cons b bs =>
      simp only [isPrefixL, Bool.and_eq_true, decide_eq_true_eq] at h
      simp only [List.map_cons, isPrefixL, Bool.and_eq_true, decide_eq_true_eq]
      exact ⟨congrArg f h.1, ih bs h.2⟩

/-- A successful index scan exhibits a prefix at some offset. -/
theorem indexOfAux_some_exists (needle : List Char) :
    ∀ (fuel : Nat) (hay : List Char) (pos : Nat),
      (indexOfAux needle fuel hay pos).isSome = true →
      ∃ i, isPrefixL needle (hay.drop i) = true := by
  intro fuel
  induction fuel with
  | zero => intro hay pos h; cases h
  | succ n ih =>
    intro hay pos h
    simp only [indexOfAux] at h
    by_cases hp : isPrefixL needle hay = true
    · exact ⟨0, hp⟩
    · rw [if_neg (by simpa using hp)] at h
      cases hay with
      | nil => cases h
      | cons c t =>
        obtain ⟨i, hi⟩ := ih t (pos + 1) h
        exact ⟨i + 1, by simpa using hi⟩

/-- Conversely, a prefix at some offset makes the index scan succeed
(with the standard fuel). -/
theorem indexOfAux_exists_some (needle : List Char) :
    ∀ (hay : List Char) (pos : Nat),
      (∃ i, isPrefixL needle (hay.drop i) = true) →
      (indexOfAux needle (hay.length + 1) hay pos).isSome = true := by
  intro hay
  induction hay with
  | nil =>
    intro pos h
    obtain ⟨i, hi⟩ := h
    rw [List.drop_nil] at hi
    simp only [List.length_nil, indexOfAux, if_pos hi]
    rfl
  | cons c t ih =>
    intro pos h
    simp only [List.length_cons, indexOfAux]
    by_cases hp : isPrefixL needle (c :: t) = true
    · rw [if_pos hp]; rfl
    · rw [if_neg (by simpa using hp)]
      obtain ⟨i, hi⟩ := h
      cases i with
      | zero => exact absurd hi hp
      | succ j => exact ih (pos + 1) ⟨j, by simpa using hi⟩

/-- Substring containment survives a character map. -/
theorem containsL_map (f : Char → Char) (hay needle : List Char)
    (h : containsL hay needle = true) :
    containsL (hay.map f) (needle.map f) = true := by
  unfold containsL indexOfFrom at h ⊢
  simp only [List.drop_zero] at h ⊢
  obtain ⟨i, hi⟩ := indexOfAux_some_exists needle _ hay 0 h
  refine indexOfAux_exists_some (needle.map f) (hay.map f) 0 ⟨i, ?_⟩
  rw [← List.map_drop]
  exact isPrefixL_map f needle _ hi

/-! ### Malformed-typed snapshot fields (dynamic JavaScript semantics)

The typed `Snapshot` above models the fields as scanner.js produces them:
strings, or absent.  The engine, however, also receives whatever object a
caller hands it, so a text field can hold a *malformed*, non-string value
(the canonical case: a number).  This section extends the embedding with
that case for `textNormalized`, following the JavaScript semantics of the
engine line by line:

* `snapshot.textNormalized || ""` keeps a truthy non-string value;
* each detector's first operation on a truthy `text` is a string method
  (`includes`, `toLowerCase`, or `trim` for the DCC rule), which throws a
  `TypeError` on a number and is caught by the per-detector
  `try`/`catch` of `evaluateAll`;
* `rawText.length` on a number is `undefined` (numbers have no `length`
  property), `undefined < 800` is false, and `undefined >= 600` is false
  in `classifyPageMode` / `computeHasMeaningfulContent`. -/

/-- A JavaScript field value: absent (`undefined`), a string, or a
non-string number (the malformed case; other truthy non-strings without
a `length` property behave like the number case). -/
inductive JsVal where
  | undef
  | str (s : String)
  | num (n : ℚ)
deriving DecidableEq

/-- JavaScript truthiness of a field value. -/
def JsVal.truthy : JsVal → Bool
  | JsVal.undef => false
  | JsVal.str s => s ≠ ""
  | JsVal.num n => n ≠ 0

/-- JavaScript `a || b` on field values. -/
def jsOrV (a b : JsVal) : JsVal := if a.truthy then a else b

/-- View an optional string as a field value. -/
def strOptToVal : Option String → JsVal
  | none => JsVal.undef
  | some s => JsVal.str s

/-- JavaScript property read `.length`: the length for strings,
`undefined` for numbers. -/
def jsLength : JsVal → Option Nat
  | JsVal.str s => some s.length
  | _ => none

/-- JavaScript `a < b` with a possibly-`undefined` left operand
(`undefined < b` is false). -/
def jsLtNum (a : Option Nat) (b : Nat) : Bool :=
  match a with
  | some n => n < b
  | none => false

/-- JavaScript `a >= b` with a possibly-`undefined` left operand
(`undefined >= b` is false). -/
def jsGeNum (a : Option Nat) (b : Nat) : Bool :=
  match a with
  | some n => b ≤ n
  | none => false

/-- A snapshot whose `textNormalized` field carries an arbitrary
JavaScript value.  The other fields keep their scanner-produced types;
a malformed value in them behaves analogously. -/
structure JsSnapshot where
  url : Option String
  textRaw : Option String
  textNormalized : JsVal
  currencySymbolsDetected : Option (List String)
  bookingTotalAmount : Option ℚ
  bookingCurrencySymbol : Option String
deriving DecidableEq

/-- The `{}` snapshot at the dynamic level. -/
def emptyJsSnapshot : JsSnapshot :=
  { url := none, textRaw := none, textNormalized := JsVal.undef,
    currencySymbolsDetected := none, bookingTotalAmount := none,
    bookingCurrencySymbol := none }

/-- Repackage a dynamic snapshot with a well-typed `textNormalized`. -/
def toTypedSnapshot (snap : JsSnapshot) (tn : Option String) : Snapshot :=
  { url := snap.url, textRaw := snap.textRaw, textNormalized := tn,
    currencySymbolsDetected := snap.currencySymbolsDetected,
    bookingTotalAmount := snap.bookingTotalAmount,
    bookingCurrencySymbol := snap.bookingCurrencySymbol }

/-- View a typed snapshot as a dynamic one. -/
def toJsSnapshot (snap : Snapshot) : JsSnapshot :=
  { url := snap.url, textRaw := snap.textRaw,
    textNormalized := strOptToVal snap.textNormalized,
    currencySymbolsDetected := snap.currencySymbolsDetected,
    bookingTotalAmount := snap.bookingTotalAmount,
    bookingCurrencySymbol := snap.bookingCurrencySymbol }

/-- One detector run against a dynamic snapshot, as seen by the
`try`/`catch` in `evaluateAll`:

* a string or absent `textNormalized` is exactly the typed embedding
  (these detectors never throw);
* a falsy number (`0`) makes `snapshot.textNormalized || ""` the empty
  string, so every detector returns `null` through its empty-text guard;
* a truthy number reaches each detector's first string method on `text`
  (`includes` / `toLowerCase` / `.trim()` in the DCC rule, which runs
  even before that rule's guard) and throws a `TypeError`. -/
def ruleJs (rule : Rule) (snap : JsSnapshot) : Except String (Option DetectedRisk) :=
  match snap.textNormalized with
  | JsVal.str s => Except.ok (rule.evaluate (toTypedSnapshot snap (some s)))
  | JsVal.undef => Except.ok (rule.evaluate (toTypedSnapshot snap none))
  | JsVal.num n =>
    if n = 0 then Except.ok none
    else Except.error "TypeError: snapshot.textNormalized is not a string"

/-- `evaluateAll` over a dynamic snapshot: the same catalog loop, each
detector behind its `try`/`catch`. -/
def evaluateAllJs (snap : JsSnapshot) : List DetectedRisk :=
  ALL_RULES.foldl
    (fun risks rule =>
      match ruleJs rule snap with
      | Except.error _ => risks
      | Except.ok none => risks
      | Except.ok (some r) => risks ++ [r])
    []

/-- `classifyPageMode` when the text length may be `undefined`
(`undefined < 800` is false, so the page classifies as content-rich). -/
def classifyPageModeJs (url : String) (textLength : Option Nat) : String :=
  let lowerUrl := lowerStr url
  let looksAuth := authUrlPatterns.any (fun p => sIncludes lowerUrl p)
  if looksAuth then "auth"
  else if jsLtNum textLength 800 then "low-content"
  else "content-rich"

/-- `computeHasMeaningfulContent` when the text length may be
`undefined`. -/
def computeHasMeaningfulContentJs (pageMode : String) (textLength : Option Nat) : Bool :=
  if pageMode = "content-rich" then true
  else if pageMode = "auth" then false
  else jsGeNum textLength 600

/-- `evaluatePage` over a dynamic snapshot: identical wiring to
`evaluatePage`, with the dynamic field semantics for `textNormalized`
(`rawText = snapshot.textRaw || snapshot.textNormalized || ""`,
`textLength = rawText.length`). -/
def evaluatePageJs (locationHref : String) (snapshot : Option JsSnapshot) : RiskResult :=
  let safe := snapshot.getD emptyJsSnapshot
  let risks := evaluateAllJs safe
  let categoryScores := computeCategoryScores risks
  let riskScore := computeGlobalRiskScore categoryScores
  let rawTextV := jsOrV (strOptToVal safe.textRaw)
    (jsOrV safe.textNormalized (JsVal.str ""))
  let url := jsOr safe.url locationHref
  let textLength := jsLength rawTextV
  let pageMode := classifyPageModeJs url textLength
  let hasMeaningfulContent := computeHasMeaningfulContentJs pageMode textLength
  let overallLevel := computeOverallLevel riskScore
  { risks := risks, categoryScores := categoryScores, riskScore := riskScore,
    overallLevel := overallLevel, hasMeaningfulContent := hasMeaningfulContent,
    pageMode := pageMode, overallScore := riskScore }

/-! ### The dynamic engine conservatively extends the typed one -/

/-- On a well-typed snapshot a dynamic detector run is exactly the typed
one (and never throws). -/
theorem ruleJs_typed (rule : Rule) (snap : Snapshot) :
    ruleJs rule (toJsSnapshot snap) = Except.ok (rule.evaluate snap) := by
  have key : ∀ tn, tn = snap.textNormalized →
      toTypedSnapshot (toJsSnapshot snap) tn = snap := by
    intro tn h; subst h; rfl
  cases h : snap.textNormalized with
  | none =>
    have hv : (toJsSnapshot snap).textNormalized = JsVal.undef := by
      simp [toJsSnapshot, strOptToVal, h]
    simp only [ruleJs, hv]
    rw [key none h.symm]
  | some s =>
    have hv : (toJsSnapshot snap).textNormalized = JsVal.str s := by
      simp [toJsSnapshot, strOptToVal, h]
    simp only [ruleJs, hv]
    rw [key (some s) h.symm]

/-- On a well-typed snapshot the dynamic scan equals the typed scan. -/
theorem evaluateAllJs_typed (snap : Snapshot) :
    evaluateAllJs (toJsSnapshot snap) = evaluateAll snap := by
  unfold evaluateAllJs evaluateAll
  suffices haux : ∀ (rules : List Rule) (acc : List DetectedRisk),
      rules.foldl
        (fun risks rule =>
          match ruleJs rule (toJsSnapshot snap) with
          | Except.error _ => risks
          | Except.ok none => risks
          | Except.ok (some r) => risks ++ [r]) acc =
      rules.foldl
        (fun risks rule =>
          match rule.evaluate snap with
          | some r => risks ++ [r]
          | none => risks) acc by
    exact haux ALL_RULES []
  intro rules
  induction rules with
  | nil => intro acc; rfl
  | cons hd tl ih =>
    intro acc
    rw [List.foldl_cons, List.foldl_cons, ruleJs_typed]
    cases hev : hd.evaluate snap with
    | none => simp only [hev]; exact ih _
    | some r => simp only [hev]; exact ih _

/-- JavaScript `a || b` agrees with the typed fallback on string-typed
values. -/
theorem jsOrV_strOpt (a : Option String) (d : String) :
    jsOrV (strOptToVal a) (JsVal.str d) = JsVal.str (jsOr a d) := by
  cases a with
  | none => rfl
  | some s =>
    by_cases hs : s = "" <;> simp [jsOrV, strOptToVal, JsVal.truthy, jsOr, hs]

/-- On a defined length the dynamic page-mode classifier is the typed
one. -/
theorem classifyPageModeJs_some (url : String) (L : Nat) :
    classifyPageModeJs url (some L) = classifyPageMode url L := by
  unfold classifyPageModeJs classifyPageMode jsLtNum
  by_cases hA : (authUrlPatterns.any fun p => sIncludes (lowerStr url) p) = true
  · simp [hA]
  · by_cases h8 : L < 800 <;> simp [hA, h8]

/-- On a defined length the dynamic content-significance test is the
typed one. -/
theorem computeHasMeaningfulContentJs_some (pm : String) (L : Nat) :
    computeHasMeaningfulContentJs pm (some L) = computeHasMeaningfulContent pm L := by
  unfold computeHasMeaningfulContentJs computeHasMeaningfulContent jsGeNum
  by_cases h1 : pm = "content-rich" <;> by_cases h2 : pm = "auth" <;> simp [h1, h2]

/-- On a well-typed snapshot the dynamic engine returns exactly what the
typed engine returns: the dynamic layer only extends the model. -/
theorem evaluatePageJs_agrees (href : String) (snap : Snapshot) :
    evaluatePageJs href (some (toJsSnapshot snap)) = evaluatePage href (some snap) := by
  simp only [evaluatePageJs, evaluatePage, Option.getD_some]
  rw [evaluateAllJs_typed]
  rw [show (toJsSnapshot snap).textRaw = snap.textRaw from rfl,
    show (toJsSnapshot snap).textNormalized = strOptToVal snap.textNormalized from rfl,
    show (toJsSnapshot snap).url = snap.url from rfl,
    jsOrV_strOpt, jsOrV_strOpt]
  rw [show jsLength (JsVal.str (jsOr snap.textRaw (jsOr snap.textNormalized ""))) =
      some (jsOr snap.textRaw (jsOr snap.textNormalized "")).length from rfl]
  rw [classifyPageModeJs_some, computeHasMeaningfulContentJs_some]

/-! ### Concrete inputs used by the claim theorems and witnesses -/

/-- The specification's Scenario B snapshot: a page whose text contains
"This booking is strictly NON-REFUNDABLE" (lower-cased in the normalized
text, as scanner.js produces it). -/
def snapScenarioB : Snapshot :=
  { emptySnapshot with
    url := some "https://example.com/risky",
    textRaw := some "This booking is strictly NON-REFUNDABLE.",
    textNormalized := some "this booking is strictly non-refundable." }

/-- A snapshot with cancellation context and the ultra-short-window
phrase "within 24 hours" of purchase (the rules.test.js scenario). -/
def snapUltraShort : Snapshot :=
  { emptySnapshot with
    url := some "https://example.com/booking-24h",
    textRaw := some "You may cancel your booking within 24 hours of purchase for a full refund.",
    textNormalized := some "you may cancel your booking within 24 hours of purchase for a full refund." }

/-- A snapshot that trips the hidden-fees detector ("resort fee"). -/
def snapResortFee : Snapshot :=
  { emptySnapshot with
    url := some "https://example.com/hotel",
    textRaw := some "A resort fee applies.",
    textNormalized := some "a resort fee applies." }

/-- The specification's Scenario D snapshot: two distinct currency
markers but no conversion language at all. -/
def snapTwoCurrencies : Snapshot :=
  { emptySnapshot with
    url := some "https://example.com/checkout",
    textRaw := some "Prices are shown in USD and CAD.",
    textNormalized := some "prices are shown in usd and cad.",
    currencySymbolsDetected := some ["USD", "CAD"] }

/-- The finding `HIDDEN_FEES_RULE` produces for `snapResortFee`. -/
def resortFeeRisk : DetectedRisk :=
  { id := "resort_or_facility_fee", category := "financial",
    title := "Daily Resort / Facility Fee",
    description := "A daily resort, amenity, or facility fee may be charged on top of the advertised price.",
    severity := "HIGH", autoPopupWorthy := true,
    ruleId := "resort_or_facility_fee", label := "Daily Resort / Facility Fee",
    severityScore := 3, tags := ["fees", "pricing"],
    evidence := [resortFeeEvidenceLine] }

/-- A detector that always throws, for exercising the `try`/`catch` of
`evaluateAll`. -/
def throwingRule : FallibleRule :=
  { id := "always_throws", evaluate := fun _ => Except.error "boom" }

/-- A 50-character raw text (Scenario E's "text length 50"). -/
def raw50 : String := ⟨List.replicate 50 'a'⟩

/-- A snapshot with a malformed (non-string) text field: its
`textNormalized` is the number 42 on a perfectly ordinary URL. -/
def snapMalformedText : JsSnapshot :=
  { emptyJsSnapshot with
    url := some "https://example.com/checkout",
    textNormalized := JsVal.num 42 }

/-! ### The claims -/

/-- C1.  Scenario B: evaluating a snapshot whose text contains "This
booking is strictly NON-REFUNDABLE" does return the
`non_refundable_or_final_sale` finding with (upper-cased) severity HIGH —
but, contrary to the claim, the engine's scoring then yields
`categoryScores.financial = 0`, `riskScore = 0` and `overallLevel =
"LOW"` instead of 80/80/"HIGH": the rules emit the severity as `"HIGH"`
while `severityToScore` only recognizes the lower-case `"high"`, so the
finding scores 0.  This theorem evaluates the embedded engine at the
failing input. -/
theorem c1_nonrefundable_scoring_bug :
    (evaluateAll snapScenarioB).map (fun r => (r.id, r.severity)) =
      [("non_refundable_or_final_sale", "HIGH")] ∧
    severityToScore "HIGH" = 0 ∧
    (evaluatePage "https://example.com/risky" (some snapScenarioB)).categoryScores.financial = 0 ∧
    (evaluatePage "https://example.com/risky" (some snapScenarioB)).riskScore = 0 ∧
    (evaluatePage "https://example.com/risky" (some snapScenarioB)).overallLevel = "LOW" :=
  ⟨by decide, by decide, by decide, by decide, by decide⟩

/-- C5.  The time-based refund-window detector does select the
ultra-short card for "within 24 hours" language (context and phrase gates
both pass), but the `ultra_short_refund_window` card is missing from the
`RISK_CARDS` registry, so `createRiskFromCard` returns no finding and the
scan emits nothing — contrary to the claim (and to the expectation of the
repository's own rules.test.js, which stubs that card in). -/
theorem c5_ultra_short_card_missing :
    lookupCard "ultra_short_refund_window" = none ∧
    cancellationContextKeywords.any
      (fun kw => sIncludes (lowerStr (jsOr snapUltraShort.textNormalized "")) kw) = true ∧
    ultraShortPhrases.any
      (fun p => sIncludes (lowerStr (jsOr snapUltraShort.textNormalized "")) p) = true ∧
    refundShortWindowEval snapUltraShort = none ∧
    evaluateAll snapUltraShort = [] :=
  ⟨by decide, by decide, by decide, by decide, by decide⟩

/-- C3 (counterexample).  The claim "every evidence snippet of every
finding is non-empty, at most ~220 characters, and a verbatim substring
of rawText modulo whitespace collapsing" is false: on a page saying just
"A resort fee applies." the hidden-fees detector emits a fixed
detector-authored evidence sentence that is not a substring of the raw
text. -/
theorem c3_evidence_substring_claim_false :
    evidenceClaimHolds snapResortFee = false := by decide

/-- C2.  The category scorer is max-based with the fixed severity mapping
low=25, med=50, high=80: for every list of risks and every one of the
four categories, `computeCategoryScores` assigns the maximum of the
severity scores of the risks in that category, and 0 when the category
has none (the running maximum over an empty set is the 0 base). -/
theorem c2_category_scores_are_max :
    (severityToScore "low" = 25 ∧ severityToScore "med" = 50 ∧
      severityToScore "high" = 80) ∧
    ∀ (risks : List DetectedRisk) (c : String),
      c ∈ ["financial", "data_privacy", "content_ip", "legal_rights"] →
      catScoreProj (computeCategoryScores risks) c = specCategoryScore risks c := by
  refine ⟨⟨rfl, rfl, rfl⟩, ?_⟩
  intro risks c hc
  simp only [List.mem_cons, List.not_mem_nil, or_false] at hc
  unfold computeCategoryScores
  rcases hc with rfl | rfl | rfl | rfl
  · rw [show catScoreProj (risks.foldl bumpCategory zeroScores) "financial" =
        (risks.foldl bumpCategory zeroScores).financial from rfl]
    rw [foldBump_financial]
    simp [zeroScores]
  · rw [show catScoreProj (risks.foldl bumpCategory zeroScores) "data_privacy" =
        (risks.foldl bumpCategory zeroScores).data_privacy from by
      unfold catScoreProj; rw [if_neg (by decide), if_pos rfl]]
    rw [foldBump_data_privacy]
    simp [zeroScores]
  · rw [show catScoreProj (risks.foldl bumpCategory zeroScores) "content_ip" =
        (risks.foldl bumpCategory zeroScores).content_ip from by
      unfold catScoreProj; rw [if_neg (by decide), if_neg (by decide), if_pos rfl]]
    rw [foldBump_content_ip]
    simp [zeroScores]
  · rw [show catScoreProj (risks.foldl bumpCategory zeroScores) "legal_rights" =
        (risks.foldl bumpCategory zeroScores).legal_rights from by
      unfold catScoreProj
      rw [if_neg (by decide), if_neg (by decide), if_neg (by decide), if_pos rfl]]
    rw [foldBump_legal_rights]
    simp [zeroScores]

/-- C2 witness: the scorer/spec agreement evaluated at a concrete
one-element risk list and category. -/
theorem c2_category_scores_witness :
    catScoreProj (computeCategoryScores [resortFeeRisk]) "financial" =
      specCategoryScore [resortFeeRisk] "financial" :=
  c2_category_scores_are_max.2 [resortFeeRisk] "financial" (by decide)

/-- C6.  An unknown risk-card id is treated as a configuration error:
`createRiskFromCard` yields no finding instead of crashing, and any
finding another detector does produce is still in `evaluateAll`'s
output. -/
theorem c6_unknown_card_is_no_finding :
    (∀ (cid : String) (ev tg : List String),
      lookupCard cid = none → createRiskFromCard cid ev tg = none) ∧
    (∀ (snap : Snapshot) (rule : Rule) (r : DetectedRisk),
      rule ∈ ALL_RULES → rule.evaluate snap = some r → r ∈ evaluateAll snap) :=
  ⟨fun cid ev tg h => createRisk_none cid ev tg h,
   fun snap rule r hm he => (mem_evaluateAll snap r).mpr ⟨rule, hm, he⟩⟩

/-- C6 witness: the missing ultra-short card yields no finding, while the
hidden-fees detector's finding on a resort-fee page survives into the
scan result. -/
theorem c6_unknown_card_witness :
    createRiskFromCard "ultra_short_refund_window" ["some evidence"] [] = none ∧
    resortFeeRisk ∈ evaluateAll snapResortFee :=
  ⟨c6_unknown_card_is_no_finding.1 "ultra_short_refund_window" ["some evidence"] []
      (by decide),
   c6_unknown_card_is_no_finding.2 snapResortFee HIDDEN_FEES_RULE resortFeeRisk
      (by
        apply List.mem_cons_of_mem
        apply List.mem_cons_of_mem
        apply List.mem_cons_of_mem
        apply List.mem_cons_of_mem
        apply List.mem_cons_of_mem
        apply List.mem_cons_of_mem
        apply List.mem_cons_of_mem
        apply List.mem_cons_of_mem
        apply List.mem_cons_of_mem
        exact List.mem_cons_self _ _)
      (by decide)⟩

/-- C7.  One throwing detector never aborts the scan and never
suppresses another detector's findings: removing a detector whose
`evaluate` throws from the catalog leaves the output of the
`try`/`catch` scan loop unchanged. -/
theorem c7_throwing_detector_isolated (snap : Snapshot) (bad : FallibleRule)
    (msg : String) (hb : bad.evaluate snap = Except.error msg)
    (pre post : List FallibleRule) :
    evaluateAllE (pre ++ bad :: post) snap = evaluateAllE (pre ++ post) snap := by
  unfold evaluateAllE
  suffices haux : ∀ (p : List FallibleRule) (acc : List DetectedRisk),
      (p ++ bad :: post).foldl
        (fun risks rule =>
          match rule.evaluate snap with
          | Except.error _ => risks
          | Except.ok none => risks
          | Except.ok (some r) => risks ++ [r]) acc =
      (p ++ post).foldl
        (fun risks rule =>
          match rule.evaluate snap with
          | Except.error _ => risks
          | Except.ok none => risks
          | Except.ok (some r) => risks ++ [r]) acc by
    exact haux pre []
  intro p
  induction p with
  | nil =>
    intro acc
    simp only [List.nil_append, List.foldl_cons, hb]
  | cons hd tl ih =>
    intro acc
    simp only [List.cons_append, List.foldl_cons]
    exact ih _

/-- C7 witness: a throwing detector placed in front of the (lifted)
hidden-fees detector changes nothing about the scan result. -/
theorem c7_throwing_detector_witness :
    evaluateAllE [throwingRule, liftRule HIDDEN_FEES_RULE] snapResortFee =
      evaluateAllE [liftRule HIDDEN_FEES_RULE] snapResortFee :=
  c7_throwing_detector_isolated snapResortFee throwingRule "boom" rfl
    [] [liftRule HIDDEN_FEES_RULE]

/-- C10.  Every finding returned by `evaluateAll` carries a non-empty
evidence array: each detector either collects at least one evidence entry
or returns no finding at all. -/
theorem c10_findings_have_evidence :
    ∀ (snap : Snapshot) (r : DetectedRisk), r ∈ evaluateAll snap → r.evidence ≠ [] := by
  intro snap r hr
  obtain ⟨rule, hm, he⟩ := (mem_evaluateAll snap r).mp hr
  simp only [ALL_RULES, List.mem_cons, List.not_mem_nil, or_false] at hm
  rcases hm with rfl | rfl | rfl | rfl | rfl | rfl | rfl | rfl | rfl | rfl
  · exact (refundKeywordsEval_some he).2.1
  · exact (refundShortWindowEval_some he).2.1
  · exact (refundDelayEval_some he).2.1
  · exact (refundPercentageEval_some he).2.1
  · exact (dccMixedCurrencyEval_some he).2.1
  · exact (arbitrationClauseEval_some he).2.1
  · exact (autoRenewalEval_some he).2.1
  · exact (trialAutoRenewEval_some he).2.1
  · exact (unilateralChangesEval_some he).2.1
  · exact (hiddenFeesEval_some he).2.1

/-- C10 witness: the resort-fee finding has non-empty evidence. -/
theorem c10_findings_have_evidence_witness : resortFeeRisk.evidence ≠ [] :=
  c10_findings_have_evidence snapResortFee resortFeeRisk (by decide)

/-- C3 (amended).  Every evidence snippet in every finding returned by
the engine is a non-empty string, and every snippet produced by the
keyword-evidence extractor is additionally at most 220 characters.  The
verbatim-substring-of-rawText guarantee does not extend to the
detector-authored summary sentences (hidden-fees sentences, the
currency-marker line, the exposure line), as the counterexample shows. -/
theorem c3_evidence_nonempty_and_bounded :
    (∀ (snap : Snapshot) (r : DetectedRisk) (e : String),
      r ∈ evaluateAll snap → e ∈ r.evidence → e ≠ "") ∧
    (∀ (tn raw : String) (kws : List String) (n : Nat) (e : String),
      e ∈ findKeywordEvidence tn raw kws n → e ≠ "" ∧ e.length ≤ 220) := by
  constructor
  · intro snap r e hr he
    obtain ⟨rule, hm, heval⟩ := (mem_evaluateAll snap r).mp hr
    simp only [ALL_RULES, List.mem_cons, List.not_mem_nil, or_false] at hm
    rcases hm with rfl | rfl | rfl | rfl | rfl | rfl | rfl | rfl | rfl | rfl
    · exact (refundKeywordsEval_some heval).2.2 e he
    · exact (refundShortWindowEval_some heval).2.2 e he
    · exact (refundDelayEval_some heval).2.2 e he
    · exact (refundPercentageEval_some heval).2.2 e he
    · exact (dccMixedCurrencyEval_some heval).2.2 e he
    · exact (arbitrationClauseEval_some heval).2.2 e he
    · exact (autoRenewalEval_some heval).2.2 e he
    · exact (trialAutoRenewEval_some heval).2.2 e he
    · exact (unilateralChangesEval_some heval).2.2 e he
    · exact (hiddenFeesEval_some heval).2.2 e he
  · intro tn raw kws n e he
    exact mem_findKeywordEvidence tn raw kws n e he

/-- C3 witness: the resort-fee evidence sentence is non-empty, and a
concrete extractor snippet is non-empty and within the 220-character
bound. -/
theorem c3_evidence_nonempty_witness :
    resortFeeEvidenceLine ≠ "" ∧
    ("Non-refundable booking." ≠ "" ∧
      String.length "Non-refundable booking." ≤ 220) :=
  ⟨c3_evidence_nonempty_and_bounded.1 snapResortFee resortFeeRisk
      resortFeeEvidenceLine (by decide) (by decide),
   c3_evidence_nonempty_and_bounded.2 "non-refundable booking."
      "Non-refundable booking." strongRefundTerms 3 "Non-refundable booking."
      (by decide)⟩

/-- C4.  The conjunctive DCC gate: a snapshot with two or more distinct
currency markers whose normalized text contains none of the
conversion-language phrases produces no `dcc_or_fx_markup` finding. -/
theorem c4_dcc_requires_conversion_language (snap : Snapshot)
    (hmarkers : 2 ≤ (dedupe ((snap.currencySymbolsDetected.getD []).map upperStr)).length)
    (hlang : dccPhrases.any
      (fun p => sIncludes (trimStr (jsOr snap.textNormalized "")) p) = false) :
    (evaluateAll snap).all (fun r => r.id ≠ "dcc_or_fx_markup") = true := by
  rw [List.all_eq_true]
  intro r hr
  rw [decide_eq_true_eq]
  obtain ⟨rule, hm, he⟩ := (mem_evaluateAll snap r).mp hr
  simp only [ALL_RULES, List.mem_cons, List.not_mem_nil, or_false] at hm
  rcases hm with rfl | rfl | rfl | rfl | rfl | rfl | rfl | rfl | rfl | rfl
  · rcases (refundKeywordsEval_some he).1 with h | h <;> (rw [h]; decide)
  · rcases (refundShortWindowEval_some he).1 with h | h <;> (rw [h]; decide)
  · rw [(refundDelayEval_some he).1]; decide
  · rw [(refundPercentageEval_some he).1]; decide
  · have hnone : DCC_MIXED_CURRENCY_RULE.evaluate snap = none :=
      dccEval_none_of_noLanguage hlang
    rw [hnone] at he; cases he
  · rw [(arbitrationClauseEval_some he).1]; decide
  · rw [(autoRenewalEval_some he).1]; decide
  · rw [(trialAutoRenewEval_some he).1]; decide
  · rw [(unilateralChangesEval_some he).1]; decide
  · rcases (hiddenFeesEval_some he).1 with h | h <;> (rw [h]; decide)

/-- C4 witness: Scenario D, markers ["USD", "CAD"] and no conversion
language. -/
theorem c4_dcc_witness :
    (evaluateAll snapTwoCurrencies).all (fun r => r.id ≠ "dcc_or_fx_markup") = true :=
  c4_dcc_requires_conversion_language snapTwoCurrencies (by decide) (by decide)

/-- C8 (amended).  A missing snapshot (non-object) or a snapshot whose
text fields are missing or empty strings degrades to empty text and
produces the zero-risk result: no risks, all category scores 0,
riskScore 0, overallLevel LOW, and hasMeaningfulContent false — without
throwing.  The claim's further "malformed" text-field case is refuted by
the counterexample below: there the engine does not degrade to empty
text, and hasMeaningfulContent comes out true. -/
theorem c8_empty_snapshot_zero_result (locationHref : String)
    (snapshot : Option Snapshot)
    (h : snapshot = none ∨
      (jsOr (snapshot.getD emptySnapshot).textRaw "" = "" ∧
       jsOr (snapshot.getD emptySnapshot).textNormalized "" = "")) :
    (evaluatePage locationHref snapshot).risks = [] ∧
    (evaluatePage locationHref snapshot).categoryScores = zeroScores ∧
    (evaluatePage locationHref snapshot).riskScore = 0 ∧
    (evaluatePage locationHref snapshot).overallLevel = "LOW" ∧
    (evaluatePage locationHref snapshot).hasMeaningfulContent = false := by
  have hT : jsOr (snapshot.getD emptySnapshot).textNormalized "" = "" := by
    rcases h with rfl | ⟨_, h2⟩
    · rfl
    · exact h2
  have hR : jsOr (snapshot.getD emptySnapshot).textRaw "" = "" := by
    rcases h with rfl | ⟨h1, _⟩
    · rfl
    · exact h1
  have hav := evaluateAll_empty hT
  unfold evaluatePage
  simp only [hav, hT, hR]
  refine ⟨?_, ?_, ?_, ?_, ?_⟩ <;>
    first
      | rfl
      | trivial
      | exact meaningless_when_empty _

/-- C8 (counterexample).  On a snapshot whose `textNormalized` field is
the number 42 the engine does not degrade to empty text: every detector
throws at its first string method and is caught (so the risks and scores
are still zero), but `rawText` is the number itself, `rawText.length` is
`undefined`, `undefined < 800` is false, so the page classifies as
`"content-rich"` and `hasMeaningfulContent` is `true` — contradicting
the claimed zero-risk result, whose `hasMeaningfulContent == false`
conjunct fails. -/
theorem c8_malformed_field_counterexample :
    (evaluatePageJs "" (some snapMalformedText)).risks = [] ∧
    (evaluatePageJs "" (some snapMalformedText)).riskScore = 0 ∧
    (evaluatePageJs "" (some snapMalformedText)).overallLevel = "LOW" ∧
    (evaluatePageJs "" (some snapMalformedText)).pageMode = "content-rich" ∧
    (evaluatePageJs "" (some snapMalformedText)).hasMeaningfulContent = true ∧
    ¬((evaluatePageJs "" (some snapMalformedText)).risks = [] ∧
      (evaluatePageJs "" (some snapMalformedText)).categoryScores = zeroScores ∧
      (evaluatePageJs "" (some snapMalformedText)).riskScore = 0 ∧
      (evaluatePageJs "" (some snapMalformedText)).overallLevel = "LOW" ∧
      (evaluatePageJs "" (some snapMalformedText)).hasMeaningfulContent = false) := by
  decide

/-- C8 witness: the completely absent snapshot. -/
theorem c8_empty_snapshot_witness :
    (evaluatePage "" none).risks = [] ∧
    (evaluatePage "" none).categoryScores = zeroScores ∧
    (evaluatePage "" none).riskScore = 0 ∧
    (evaluatePage "" none).overallLevel = "LOW" ∧
    (evaluatePage "" none).hasMeaningfulContent = false :=
  c8_empty_snapshot_zero_result "" none (Or.inl rfl)

/-- C9.  Page-mode classification and content significance: the mode is
`"auth"` exactly when the lowercased URL contains one of the
login/signup/auth patterns; otherwise it is `"low-content"` exactly for
raw text shorter than 800 characters and `"content-rich"` otherwise;
`hasMeaningfulContent` holds exactly for content-rich pages and for
low-content pages of length at least 600 (never for auth pages).  In
particular a URL containing "/login" with text length 50 classifies as
`"auth"` with `hasMeaningfulContent = false`. -/
theorem c9_page_mode_classification (url rawText : String) :
    (classifyPageMode url rawText.length = "auth" ↔
      ∃ p ∈ authUrlPatterns, sIncludes (lowerStr url) p = true) ∧
    ((¬∃ p ∈ authUrlPatterns, sIncludes (lowerStr url) p = true) →
      ((classifyPageMode url rawText.length = "low-content" ↔ rawText.length < 800) ∧
       (classifyPageMode url rawText.length = "content-rich" ↔ 800 ≤ rawText.length))) ∧
    (computeHasMeaningfulContent (classifyPageMode url rawText.length) rawText.length = true ↔
      (classifyPageMode url rawText.length = "content-rich" ∨
        (classifyPageMode url rawText.length = "low-content" ∧ 600 ≤ rawText.length))) ∧
    (sIncludes url "/login" = true → rawText.length = 50 →
      classifyPageMode url rawText.length = "auth" ∧
      computeHasMeaningfulContent (classifyPageMode url rawText.length)
        rawText.length = false) := by
  unfold classifyPageMode
  by_cases hA : authUrlPatterns.any (fun p => sIncludes (lowerStr url) p) = true
  · rw [if_pos hA]
    refine ⟨⟨fun _ => List.any_eq_true.mp hA, fun _ => rfl⟩, ?_, ?_, ?_⟩
    · intro hno; exact absurd (List.any_eq_true.mp hA) hno
    · rw [show computeHasMeaningfulContent "auth" rawText.length = false from rfl]
      constructor
      · intro hc; exact absurd hc (by decide)
      · rintro (hc | ⟨hc, _⟩) <;> exact absurd hc (by decide)
    · intro _ _; exact ⟨rfl, rfl⟩
  · rw [if_neg hA]
    have hnoex : ¬∃ p ∈ authUrlPatterns, sIncludes (lowerStr url) p = true :=
      fun hex => hA (List.any_eq_true.mpr hex)
    have hlogin : sIncludes url "/login" = true → False := by
      intro hlog
      apply hA
      apply List.any_eq_true.mpr
      refine ⟨"/login", by decide, ?_⟩
      exact containsL_map Char.toLower url.data ("/login".data) hlog
    by_cases hL : rawText.length < 800
    · rw [if_pos hL]
      refine ⟨⟨fun hc => absurd hc (by decide), fun hex => absurd hex hnoex⟩,
        fun _ => ⟨⟨fun _ => hL, fun _ => rfl⟩,
          ⟨fun hc => absurd hc (by decide), fun h8 => absurd hL (by omega)⟩⟩, ?_, ?_⟩
      · rw [show computeHasMeaningfulContent "low-content" rawText.length =
            decide (600 ≤ rawText.length) from rfl]
        constructor
        · intro hd; exact Or.inr ⟨rfl, of_decide_eq_true hd⟩
        · rintro (hc | ⟨_, h6⟩)
          · exact absurd hc (by decide)
          · exact decide_eq_true h6
      · intro hlog _; exact absurd (hlogin hlog) id
    · rw [if_neg hL]
      refine ⟨⟨fun hc => absurd hc (by decide), fun hex => absurd hex hnoex⟩,
        fun _ => ⟨⟨fun hc => absurd hc (by decide), fun hlt => absurd hlt hL⟩,
          ⟨fun _ => by omega, fun _ => rfl⟩⟩, ?_, ?_⟩
      · rw [show computeHasMeaningfulContent "content-rich" rawText.length = true from rfl]
        exact ⟨fun _ => Or.inl rfl, fun _ => rfl⟩
      · intro hlog _; exact absurd (hlogin hlog) id

/-- C9 witness: Scenario E with a concrete "/login" URL and a
50-character text. -/
theorem c9_page_mode_witness :
    classifyPageMode "https://shop.example/login" raw50.length = "auth" ∧
    computeHasMeaningfulContent
      (classifyPageMode "https://shop.example/login" raw50.length) raw50.length = false :=
  (c9_page_mode_classification "https://shop.example/login" raw50).2.2.2
    (by decide) (by decide)

end Scribbit
